import Mathlib

/-!
# PipeWire nodes and their audio binding (`src/services/pipewire/node.cpp`)

A shallow embedding of `PwNodeBoundAudio`, of `PwNode` and of `PwAudioChannel::toString`.
The runtime directory getters of `src/core/paths.cpp` and `ProxyWindowBase::setColor` of
`src/window/proxywindow.cpp` follow in the namespaces `Core` and `Window`.

Conventions of the embedding.

* Volumes are `float` in the source.  The methods are written over any type `F` with the
  arithmetic operations they use and decidable equality.  The theorems on exact arithmetic take
  `F` to be a field (no rounding, no NaN, no infinities), with examples over `ℚ` and the cube
  root over `ℝ`; `Binary32` carries the rounded multiplication of `float`.
* `std::cbrt` comes from the C library.  Every function that calls it takes it as the parameter
  `cbrt : F → F`; `stdCbrt` is the real cube root, without the rounding of `std::cbrt`.
* A method returns the new object together with the list of its observable effects, in program
  order: log calls, Qt signals, calls into the device and requests sent to the server.
* A method that dereferences a null pointer has no result (`none`).
* `QString::toInt` and the device registry are parameters of the methods that use them; the
  examples use `readInt` and `exampleDevices`.
-/

namespace Pipewire

/-- Severity of a logging call (`qCInfo`, `qCWarning`, `qCCritical`). -/
inductive LogLevel where
  | info
  | warning
  | critical
deriving DecidableEq, Repr

/-- The value of `SPA_PARAM_Props` in `enum spa_param_type` (`spa/param/param.h`). -/
def SPA_PARAM_Props : Nat := 2

/-- The value `PwAudioChannel::FrontLeft`, which is `SPA_AUDIO_CHANNEL_FL`. -/
def PwAudioChannel.FrontLeft : Nat := 3

/-- The value `PwAudioChannel::FrontRight`, which is `SPA_AUDIO_CHANNEL_FR`. -/
def PwAudioChannel.FrontRight : Nat := 4

/-- A `Props` object (`spa_pod` of type `SPA_TYPE_OBJECT_Props`), reduced to the three properties
that `node.cpp` reads or writes.  `none` means that the object carries no such property. -/
structure SpaPod (F : Type) where
  /-- The property `SPA_PROP_channelVolumes`: linear volumes, one per channel. -/
  channelVolumes : Option (List F)
  /-- The property `SPA_PROP_channelMap`: channel positions (`PwAudioChannel::Enum` values). -/
  channelMap : Option (List Nat)
  /-- The property `SPA_PROP_mute`. -/
  mute : Option Bool
deriving DecidableEq

/-- Observable effects of the methods of `PwNode` and `PwNodeBoundAudio`. -/
inductive Effect (F : Type) where
  /-- A call of a logging macro of category `logNode`. -/
  | log (level : LogLevel)
  /-- Qt signal `PwNode::propertiesChanged`. -/
  | propertiesChanged
  /-- Qt signal `PwNodeBoundAudio::channelsChanged`. -/
  | channelsChanged
  /-- Qt signal `PwNodeBoundAudio::volumesChanged`. -/
  | volumesChanged
  /-- Qt signal `PwNodeBoundAudio::mutedChanged`. -/
  | mutedChanged
  /-- The call `device->ref()`. -/
  | deviceRef
  /-- The call `device->unref()`. -/
  | deviceUnref
  /-- The call `device->setMuted(routeDevice, muted)`. -/
  | deviceSetMuted (routeDevice : Int) (muted : Bool)
  /-- The call `device->setVolumes(routeDevice, volumes)`. -/
  | deviceSetVolumes (routeDevice : Int) (volumes : List F)
  /-- The call `pw_node_add_listener`. -/
  | listenerAdd
  /-- The call `listener.remove()`. -/
  | listenerRemove
  /-- The call `pw_node_set_param(proxy, id, 0, pod)`. -/
  | nodeSetParam (id : Nat) (pod : SpaPod F)
  /-- The call `pw_node_enum_params(proxy, 0, id, 0, UINT32_MAX, nullptr)`. -/
  | nodeEnumParams (id : Nat)
deriving DecidableEq

/-- A change notification of the audio binding or of the node (a Qt signal). -/
def Effect.isNotification {F : Type} : Effect F → Bool
  | .propertiesChanged => true
  | .channelsChanged => true
  | .volumesChanged => true
  | .mutedChanged => true
  | _ => false

/-- A control call into the owning device. -/
def Effect.isDeviceCall {F : Type} : Effect F → Bool
  | .deviceSetMuted _ _ => true
  | .deviceSetVolumes _ _ => true
  | _ => false

/-- A set-parameter command sent directly to the node. -/
def Effect.isNodeCommand {F : Type} : Effect F → Bool
  | .nodeSetParam _ _ => true
  | _ => false

/-- The notifications of a trace, in order. -/
def notifications {F : Type} (t : List (Effect F)) : List (Effect F) :=
  t.filter Effect.isNotification

/-- A trace with no notification, no device call and no command to the node. -/
def silent {F : Type} (t : List (Effect F)) : Bool :=
  t.all fun e => !e.isNotification && !e.isDeviceCall && !e.isNodeCommand

/-- The device a node is routed through (`PwDevice`, declared in `device.hpp`).  Its control
methods are implemented outside this translation unit; only the boolean they return matters to
the node, so they are carried as arbitrary functions of their arguments. -/
structure PwDevice (F : Type) where
  /-- The server-assigned id of the device. -/
  id : Int
  /-- The result of `PwDevice::setMuted(routeDevice, muted)`. -/
  setMuted : Int → Bool → Bool
  /-- The result of `PwDevice::setVolumes(routeDevice, volumes)`. -/
  setVolumes : Int → List F → Bool

/-- The classification of a node (`PwNodeType`). -/
inductive PwNodeType where
  | Unknown
  | Audio
deriving DecidableEq, Repr

/-- The state of a `PwNodeBoundAudio`. -/
structure PwNodeBoundAudio (F : Type) where
  mMuted : Bool
  mChannels : List Nat
  mVolumes : List F
deriving DecidableEq

/-- The fields of a `PwNode` that `node.cpp` reads or writes.  `proxy` tells whether
`proxy()` is non-null, that is whether the node is bound to the server. -/
structure PwNode (F : Type) where
  proxy : Bool
  type : PwNodeType
  isSink : Bool
  isStream : Bool
  name : String
  description : String
  nick : String
  properties : List (String × String)
  device : Option (PwDevice F)
  routeDevice : Int
  boundData : Option (PwNodeBoundAudio F)

/-- A freshly constructed audio binding: not muted, no channels, no volumes. -/
def PwNodeBoundAudio.init {F : Type} : PwNodeBoundAudio F :=
  { mMuted := false, mChannels := [], mVolumes := [] }

section Methods

variable {F : Type} [Zero F] [Add F] [Mul F] [Div F] [NatCast F] [DecidableEq F]

/-- `PwNodeBoundAudio::updateVolumeFromParam`.  Both array properties are looked up and used
without a null check, so the method has no result when one of them is missing. -/
def PwNodeBoundAudio.updateVolumeFromParam (cbrt : F → F) (self : PwNodeBoundAudio F)
    (param : SpaPod F) : Option (PwNodeBoundAudio F × List (Effect F)) :=
  match param.channelVolumes, param.channelMap with
  | some volumes, some channels =>
    let volumesVec := volumes.map fun linear => cbrt linear
    let channelsVec := channels
    if volumesVec.length ≠ channelsVec.length then
      some (self, [Effect.log LogLevel.warning])
    else
      let channelsChanged := decide (self.mChannels ≠ channelsVec)
      let s1 := if channelsChanged then { self with mChannels := channelsVec } else self
      let t1 := if channelsChanged then [Effect.log LogLevel.info] else []
      let volumesChanged := decide (s1.mVolumes ≠ volumesVec)
      let s2 := if volumesChanged then { s1 with mVolumes := volumesVec } else s1
      let t2 := if volumesChanged then [Effect.log LogLevel.info] else []
      some (s2, t1 ++ t2
        ++ (if channelsChanged then [Effect.channelsChanged] else [])
        ++ (if volumesChanged then [Effect.volumesChanged] else []))
  | _, _ => none

/-- `PwNodeBoundAudio::updateMutedFromParam`.  The local `muted` starts as `false`; the parser
overwrites it only when the object carries the mute property, and its return value is ignored. -/
def PwNodeBoundAudio.updateMutedFromParam (self : PwNodeBoundAudio F) (param : SpaPod F) :
    PwNodeBoundAudio F × List (Effect F) :=
  let muted := match param.mute with
    | some b => b
    | none => false
  if muted ≠ self.mMuted then
    ({ self with mMuted := muted }, [Effect.log LogLevel.info, Effect.mutedChanged])
  else
    (self, [])

/-- `PwNodeBoundAudio::onSpaParam`. -/
def PwNodeBoundAudio.onSpaParam (cbrt : F → F) (self : PwNodeBoundAudio F)
    (id index : Nat) (param : SpaPod F) : Option (PwNodeBoundAudio F × List (Effect F)) :=
  if id = SPA_PARAM_Props ∧ index = 0 then
    match self.updateVolumeFromParam cbrt param with
    | some (s1, t1) =>
      let r := s1.updateMutedFromParam param
      some (r.1, t1 ++ r.2)
    | none => none
  else
    some (self, [])

/-- `PwNodeBoundAudio::onUnbind`. -/
def PwNodeBoundAudio.onUnbind (self : PwNodeBoundAudio F) :
    PwNodeBoundAudio F × List (Effect F) :=
  ({ self with mChannels := [], mVolumes := [] },
    [Effect.channelsChanged, Effect.volumesChanged])

/-- `PwNodeBoundAudio::isMuted`. -/
def PwNodeBoundAudio.isMuted (self : PwNodeBoundAudio F) : Bool := self.mMuted

/-- `PwNodeBoundAudio::channels`. -/
def PwNodeBoundAudio.channels (self : PwNodeBoundAudio F) : List Nat := self.mChannels

/-- `PwNodeBoundAudio::volumes`. -/
def PwNodeBoundAudio.volumes (self : PwNodeBoundAudio F) : List F := self.mVolumes

/-- `PwNodeBoundAudio::setMuted`.  `node` is the owning node (`this->node`). -/
def PwNodeBoundAudio.setMuted (node : PwNode F) (self : PwNodeBoundAudio F) (muted : Bool) :
    PwNodeBoundAudio F × List (Effect F) :=
  if node.proxy = false then
    (self, [Effect.log LogLevel.critical])
  else if muted = self.mMuted then
    (self, [])
  else
    match node.device with
    | some device =>
      if device.setMuted node.routeDevice muted = false then
        (self, [Effect.deviceSetMuted node.routeDevice muted])
      else
        ({ self with mMuted := muted },
          [Effect.deviceSetMuted node.routeDevice muted, Effect.log LogLevel.info,
            Effect.mutedChanged])
    | none =>
      let pod : SpaPod F := { channelVolumes := none, channelMap := none, mute := some muted }
      ({ self with mMuted := muted },
        [Effect.log LogLevel.info, Effect.nodeSetParam SPA_PARAM_Props pod, Effect.mutedChanged])

/-- `PwNodeBoundAudio::averageVolume`.  With no volumes the source divides `0.0f` by `0.0f`; in a
field that quotient is `0`.  The only caller, `setAverageVolume`, then maps over the empty list,
so the difference cannot be observed there. -/
def PwNodeBoundAudio.averageVolume (self : PwNodeBoundAudio F) : F :=
  let total := self.mVolumes.foldl (fun total volume => total + volume) 0
  total / (self.mVolumes.length : F)

/-- `PwNodeBoundAudio::setVolumes`.  `node` is the owning node (`this->node`). -/
def PwNodeBoundAudio.setVolumes (node : PwNode F) (self : PwNodeBoundAudio F)
    (volumes : List F) : PwNodeBoundAudio F × List (Effect F) :=
  if node.proxy = false then
    (self, [Effect.log LogLevel.critical])
  else if volumes = self.mVolumes then
    (self, [])
  else if volumes.length ≠ self.mVolumes.length then
    (self, [Effect.log LogLevel.critical])
  else
    match node.device with
    | some device =>
      if device.setVolumes node.routeDevice volumes = false then
        (self, [Effect.deviceSetVolumes node.routeDevice volumes])
      else
        ({ self with mVolumes := volumes },
          [Effect.deviceSetVolumes node.routeDevice volumes, Effect.log LogLevel.info,
            Effect.volumesChanged])
    | none =>
      let cubedVolumes := volumes.map fun volume => volume * volume * volume
      let pod : SpaPod F :=
        { channelVolumes := some cubedVolumes, channelMap := none, mute := none }
      ({ self with mVolumes := volumes },
        [Effect.log LogLevel.info, Effect.nodeSetParam SPA_PARAM_Props pod,
          Effect.volumesChanged])

/-- `PwNodeBoundAudio::setAverageVolume`. -/
def PwNodeBoundAudio.setAverageVolume (node : PwNode F) (self : PwNodeBoundAudio F)
    (volume : F) : PwNodeBoundAudio F × List (Effect F) :=
  let oldAverage := self.averageVolume
  let mul := if oldAverage = 0 then 0 else volume / oldAverage
  let volumes := self.mVolumes.map fun oldVolume => if mul = 0 then volume else oldVolume * mul
  self.setVolumes node volumes

/-- The calls of the audio binding that change its cache. -/
inductive AudioCall (F : Type) where
  | onSpaParam (id index : Nat) (param : SpaPod F)
  | setVolumes (volumes : List F)
  | setAverageVolume (volume : F)
  | setMuted (muted : Bool)
  | onUnbind

/-- One call on the binding of `node`; `none` when the call has no result. -/
def AudioCall.run (cbrt : F → F) (node : PwNode F) (self : PwNodeBoundAudio F) :
    AudioCall F → Option (PwNodeBoundAudio F × List (Effect F))
  | .onSpaParam id index param => self.onSpaParam cbrt id index param
  | .setVolumes volumes => some (self.setVolumes node volumes)
  | .setAverageVolume volume => some (self.setAverageVolume node volume)
  | .setMuted muted => some (self.setMuted node muted)
  | .onUnbind => some self.onUnbind

/-- The bindings reachable from a fresh one by calls that return.  Between two calls the owning
node may change in any way (bound or not, device, route). -/
inductive PwNodeBoundAudio.Reachable (cbrt : F → F) : PwNodeBoundAudio F → Prop where
  | init : Reachable cbrt PwNodeBoundAudio.init
  | step (node : PwNode F) (call : AudioCall F) (s s1 : PwNodeBoundAudio F)
      (t : List (Effect F)) :
      Reachable cbrt s → call.run cbrt node s = some (s1, t) → Reachable cbrt s1

end Methods

/-- The real cube root: what `std::cbrt` computes when its rounding to `float` is left out.  It
is odd, and the non-negative root on non-negative values. -/
noncomputable def stdCbrt (x : ℝ) : ℝ :=
  if 0 ≤ x then x ^ ((3 : ℝ)⁻¹) else -((-x) ^ ((3 : ℝ)⁻¹))

/-- A bound node with no device. -/
def PwNode.boundNoDevice {F : Type} : PwNode F :=
  { proxy := true, type := PwNodeType.Audio, isSink := true, isStream := false, name := "",
    description := "", nick := "", properties := [], device := none, routeDevice := -1,
    boundData := none }

/-- A device that accepts every control call. -/
def PwDevice.accepting {F : Type} (id : Int) : PwDevice F :=
  { id := id, setMuted := fun _ _ => true, setVolumes := fun _ _ => true }

/-- A device that refuses every control call. -/
def PwDevice.refusing {F : Type} (id : Int) : PwDevice F :=
  { id := id, setMuted := fun _ _ => false, setVolumes := fun _ _ => false }

/-- A bound node attached to `device`, with route index `routeDevice`. -/
def PwNode.boundVia {F : Type} (device : PwDevice F) (routeDevice : Int) : PwNode F :=
  { proxy := true, type := PwNodeType.Audio, isSink := true, isStream := false, name := "",
    description := "", nick := "", properties := [], device := some device,
    routeDevice := routeDevice, boundData := none }

/-- The arithmetic mean of a list of volumes, in the words of the specification. -/
def specMean {F : Type} [Field F] (vols : List F) : F :=
  vols.sum / (vols.length : F)

/-- The volumes that the specification assigns to `setAverageVolume(v)` on the cached volumes
`vols`: every channel is the literal `v` when the mean is zero, and otherwise every channel is
scaled by `v / mean`. -/
def specAverageVolumes {F : Type} [Field F] [DecidableEq F] (vols : List F) (v : F) : List F :=
  if specMean vols = 0 then vols.map fun _ => v
  else vols.map fun x => x * (v / specMean vols)

/-! ## The node: dictionaries, property cache, life cycle -/

/-- A `spa_dict`: its key/value items, in order. -/
abbrev SpaDict := List (String × String)

/-- `spa_dict_lookup`: the value of the first item that has the key, if any. -/
def spa_dict_lookup : SpaDict → String → Option String
  | [], _ => none
  | item :: rest, key => if item.1 = key then some item.2 else spa_dict_lookup rest key

/-- The key `SPA_KEY_MEDIA_CLASS` (`spa/utils/keys.h`). -/
def SPA_KEY_MEDIA_CLASS : String := "media.class"

/-- The key `SPA_KEY_NODE_NAME` (`spa/node/keys.h`). -/
def SPA_KEY_NODE_NAME : String := "node.name"

/-- The key `SPA_KEY_NODE_DESCRIPTION` (`spa/node/keys.h`). -/
def SPA_KEY_NODE_DESCRIPTION : String := "node.description"

/-- The key `PW_KEY_NODE_NICK` (`pipewire/keys.h`). -/
def PW_KEY_NODE_NICK : String := "node.nick"

/-- The key `PW_KEY_DEVICE_ID` (`pipewire/keys.h`). -/
def PW_KEY_DEVICE_ID : String := "device.id"

/-- `QMap<QString, QString>::insert` on a map kept as a list of entries with distinct keys:
the value of an existing key is replaced, a new key gets a new entry.  The order of the entries
carries no meaning. -/
def QMap.insert : List (String × String) → String → String → List (String × String)
  | [], key, value => [(key, value)]
  | entry :: rest, key, value =>
    if entry.1 = key then (key, value) :: rest else entry :: QMap.insert rest key value

/-- One entry of `pw_node_info::params`: the parameter id and whether `SPA_PARAM_INFO_READ` is
set in its flags. -/
structure SpaParamInfo where
  id : Nat
  readable : Bool
deriving DecidableEq

/-- The fields of `pw_node_info` that `node.cpp` reads.  `changeProps` and `changeParams` are the
bits `PW_NODE_CHANGE_MASK_PROPS` and `PW_NODE_CHANGE_MASK_PARAMS` of `change_mask`. -/
structure PwNodeInfo where
  changeProps : Bool
  changeParams : Bool
  props : SpaDict
  params : List SpaParamInfo
deriving DecidableEq

/-- A node as its constructor leaves it: not bound, not classified, no device, no route. -/
def PwNode.fresh {F : Type} : PwNode F :=
  { proxy := false, type := PwNodeType.Unknown, isSink := false, isStream := false, name := "",
    description := "", nick := "", properties := [], device := none, routeDevice := -1,
    boundData := none }

section NodeMethods

variable {F : Type}

/-- `PwNode::bindHooks`. -/
def PwNode.bindHooks (self : PwNode F) : PwNode F × List (Effect F) :=
  (self, (if self.device.isSome then [Effect.deviceRef] else []) ++ [Effect.listenerAdd])

/-- `PwNode::unbindHooks`. -/
def PwNode.unbindHooks (self : PwNode F) : PwNode F × List (Effect F) :=
  let s1 := { self with routeDevice := -1, properties := [] }
  let t1 : List (Effect F) := [Effect.listenerRemove, Effect.propertiesChanged]
  let r2 : PwNode F × List (Effect F) :=
    match s1.boundData with
    | some bound => ({ s1 with boundData := some bound.onUnbind.1 }, bound.onUnbind.2)
    | none => (s1, [])
  (r2.1, t1 ++ r2.2 ++ (if r2.1.device.isSome then [Effect.deviceUnref] else []))

/-- `PwNode::initProps`, first block: the classification by the media class. -/
def PwNode.initMediaClass (self : PwNode F) (props : SpaDict) : PwNode F :=
  match spa_dict_lookup props SPA_KEY_MEDIA_CLASS with
  | some mediaClass =>
    if mediaClass = "Audio/Sink" then
      { self with type := PwNodeType.Audio, isSink := true, isStream := false }
    else if mediaClass = "Audio/Source" then
      { self with type := PwNodeType.Audio, isSink := false, isStream := false }
    else if mediaClass = "Stream/Output/Audio" then
      { self with type := PwNodeType.Audio, isSink := false, isStream := true }
    else if mediaClass = "Stream/Input/Audio" then
      { self with type := PwNodeType.Audio, isSink := true, isStream := true }
    else self
  | none => self

/-- `PwNode::initProps`, the three blocks that read name, description and nick. -/
def PwNode.initNames (self : PwNode F) (props : SpaDict) : PwNode F :=
  let s1 :=
    match spa_dict_lookup props SPA_KEY_NODE_NAME with
    | some nodeName => { self with name := nodeName }
    | none => self
  let s2 :=
    match spa_dict_lookup props SPA_KEY_NODE_DESCRIPTION with
    | some nodeDesc => { s1 with description := nodeDesc }
    | none => s1
  match spa_dict_lookup props PW_KEY_NODE_NICK with
  | some nodeNick => { s2 with nick := nodeNick }
  | none => s2

/-- `PwNode::initProps`, the block that reads the device id.  `toInt` is `QString::toInt`
(`none` when the conversion fails), `devices` is the lookup `registry->devices.value(id)`
(`none` for the null pointer). -/
def PwNode.initDevice (toInt : String → Option Int) (devices : Int → Option (PwDevice F))
    (self : PwNode F) (props : SpaDict) : PwNode F × List (Effect F) :=
  match spa_dict_lookup props PW_KEY_DEVICE_ID with
  | some deviceId =>
    match toInt deviceId with
    | none => (self, [Effect.log LogLevel.critical])
    | some id =>
      match devices id with
      | some device => ({ self with device := some device }, [])
      | none => ({ self with device := none }, [Effect.log LogLevel.critical])
  | none => (self, [])

/-- `PwNode::initProps`: its blocks in the order of the source, then the construction of the
audio binding. -/
def PwNode.initProps (toInt : String → Option Int) (devices : Int → Option (PwDevice F))
    (self : PwNode F) (props : SpaDict) : PwNode F × List (Effect F) :=
  let s1 := self.initMediaClass props
  let s2 := s1.initNames props
  let r3 := s2.initDevice toInt devices props
  let s4 :=
    if r3.1.type = PwNodeType.Audio then
      { r3.1 with boundData := some PwNodeBoundAudio.init }
    else r3.1
  (s4, r3.2)

/-- `PwNodeBoundAudio::onInfo`: the requests it sends; the cache is not touched. -/
def PwNodeBoundAudio.onInfo (info : PwNodeInfo) : List (Effect F) :=
  if info.changeParams then
    info.params.filterMap fun param =>
      if param.id = SPA_PARAM_Props ∧ param.readable = true then
        some (Effect.nodeEnumParams param.id)
      else none
  else []

/-- `PwNode::onInfo`.  `toInt` is `QString::toInt`: `ok` is whether the conversion succeeded and
`id` is its result, `0` on failure. -/
def PwNode.onInfo (toInt : String → Option Int) (self : PwNode F) (info : PwNodeInfo) :
    PwNode F × List (Effect F) :=
  let r1 : PwNode F × List (Effect F) :=
    if info.changeProps then
      let r0 : PwNode F × List (Effect F) :=
        match self.device with
        | some _ =>
          match spa_dict_lookup info.props "card.profile.device" with
          | some routeDevice =>
            let ok := (toInt routeDevice).isSome
            let id := (toInt routeDevice).getD 0
            ({ self with routeDevice := id },
              if ok = false then [Effect.log LogLevel.critical] else [])
          | none => (self, [Effect.log LogLevel.critical])
        | none => (self, [])
      let properties :=
        info.props.foldl (fun properties item => QMap.insert properties item.1 item.2) []
      ({ r0.1 with properties := properties }, r0.2 ++ [Effect.propertiesChanged])
    else (self, [])
  let t2 : List (Effect F) :=
    match r1.1.boundData with
    | some _ => PwNodeBoundAudio.onInfo info
    | none => []
  (r1.1, r1.2 ++ t2)

/-- The life-cycle calls of a node. -/
inductive NodeCall where
  | initProps (props : SpaDict)
  | bindHooks
  | onInfo (info : PwNodeInfo)
  | unbindHooks

/-- One life-cycle call; the effects are dropped. -/
def NodeCall.run (toInt : String → Option Int) (devices : Int → Option (PwDevice F))
    (self : PwNode F) : NodeCall → PwNode F
  | .initProps props => (self.initProps toInt devices props).1
  | .bindHooks => self.bindHooks.1
  | .onInfo info => (self.onInfo toInt info).1
  | .unbindHooks => self.unbindHooks.1

/-- A sequence of life-cycle calls, from left to right. -/
def PwNode.runCalls (toInt : String → Option Int) (devices : Int → Option (PwDevice F))
    (self : PwNode F) (calls : List NodeCall) : PwNode F :=
  calls.foldl (fun node call => call.run toInt devices node) self

end NodeMethods

/-- Reads decimal digits onto an accumulator; `none` at the first other character. -/
def readDigits : List Char → Nat → Option Nat
  | [], acc => some acc
  | c :: cs, acc =>
    if 48 ≤ c.toNat ∧ c.toNat ≤ 57 then readDigits cs (acc * 10 + (c.toNat - 48)) else none

/-- A conversion used in the examples in place of `QString::toInt`: a non-empty run of decimal
digits, with an optional minus sign in front. -/
def readInt (s : String) : Option Int :=
  match s.toList with
  | [] => none
  | '-' :: c :: cs => (readDigits (c :: cs) 0).map fun n => -(n : Int)
  | c :: cs => (readDigits (c :: cs) 0).map fun n => (n : Int)

/-- A registry for the examples: it knows the device with id `1` only. -/
def exampleDevices {F : Type} (id : Int) : Option (PwDevice F) :=
  if id = 1 then some (PwDevice.accepting 1) else none

/-- The nodes reachable from a fresh one by life-cycle calls in which `initProps` runs only
while `routeDevice` is `-1`, as it is at construction and after `unbindHooks`. -/
inductive PwNode.Reachable {F : Type} (toInt : String → Option Int)
    (devices : Int → Option (PwDevice F)) : PwNode F → Prop where
  | fresh : Reachable toInt devices PwNode.fresh
  | initProps (node : PwNode F) (props : SpaDict) :
      Reachable toInt devices node → node.routeDevice = -1 →
      Reachable toInt devices (node.initProps toInt devices props).1
  | bindHooks (node : PwNode F) :
      Reachable toInt devices node → Reachable toInt devices node.bindHooks.1
  | onInfo (node : PwNode F) (info : PwNodeInfo) :
      Reachable toInt devices node → Reachable toInt devices (node.onInfo toInt info).1
  | unbindHooks (node : PwNode F) :
      Reachable toInt devices node → Reachable toInt devices node.unbindHooks.1

/-! ## Channel names -/

/-- The numeric values of the enumerators of `PwAudioChannel::Enum`.  The enumeration is declared
in `node.hpp`; `toString` is read for arbitrary values of its enumerators. -/
structure PwAudioChannel.Enum where
  Unknown : Nat
  NA : Nat
  Mono : Nat
  FrontCenter : Nat
  FrontLeft : Nat
  FrontRight : Nat
  FrontLeftCenter : Nat
  FrontRightCenter : Nat
  FrontLeftWide : Nat
  FrontRightWide : Nat
  FrontCenterHigh : Nat
  FrontLeftHigh : Nat
  FrontRightHigh : Nat
  LowFrequencyEffects : Nat
  LowFrequencyEffects2 : Nat
  LowFrequencyEffectsLeft : Nat
  LowFrequencyEffectsRight : Nat
  SideLeft : Nat
  SideRight : Nat
  RearCenter : Nat
  RearLeft : Nat
  RearRight : Nat
  RearLeftCenter : Nat
  RearRightCenter : Nat
  TopCenter : Nat
  TopFrontCenter : Nat
  TopFrontLeft : Nat
  TopFrontRight : Nat
  TopFrontLeftCenter : Nat
  TopFrontRightCenter : Nat
  TopSideLeft : Nat
  TopSideRight : Nat
  TopRearCenter : Nat
  TopRearLeft : Nat
  TopRearRight : Nat
  BottomCenter : Nat
  BottomLeftCenter : Nat
  BottomRightCenter : Nat
  AuxRangeStart : Nat
  AuxRangeEnd : Nat
  CustomRangeStart : Nat

/-- The `case` labels of the `switch` in `PwAudioChannel::toString` with the strings they return,
in the order of the source. -/
def PwAudioChannel.fixedNames (E : PwAudioChannel.Enum) : List (Nat × String) :=
  [
    (E.Unknown, "Unknown"),
    (E.NA, "N/A"),
    (E.Mono, "Mono"),
    (E.FrontCenter, "Front Center"),
    (E.FrontLeft, "Front Left"),
    (E.FrontRight, "Front Right"),
    (E.FrontLeftCenter, "Front Left Center"),
    (E.FrontRightCenter, "Front Right Center"),
    (E.FrontLeftWide, "Front Left Wide"),
    (E.FrontRightWide, "Front Right Wide"),
    (E.FrontCenterHigh, "Front Center High"),
    (E.FrontLeftHigh, "Front Left High"),
    (E.FrontRightHigh, "Front Right High"),
    (E.LowFrequencyEffects, "Low Frequency Effects"),
    (E.LowFrequencyEffects2, "Low Frequency Effects 2"),
    (E.LowFrequencyEffectsLeft, "Low Frequency Effects Left"),
    (E.LowFrequencyEffectsRight, "Low Frequency Effects Right"),
    (E.SideLeft, "Side Left"),
    (E.SideRight, "Side Right"),
    (E.RearCenter, "Rear Center"),
    (E.RearLeft, "Rear Left"),
    (E.RearRight, "Rear Right"),
    (E.RearLeftCenter, "Rear Left Center"),
    (E.RearRightCenter, "Rear Right Center"),
    (E.TopCenter, "Top Center"),
    (E.TopFrontCenter, "Top Front Center"),
    (E.TopFrontLeft, "Top Front Left"),
    (E.TopFrontRight, "Top Front Right"),
    (E.TopFrontLeftCenter, "Top Front Left Center"),
    (E.TopFrontRightCenter, "Top Front Right Center"),
    (E.TopSideLeft, "Top Side Left"),
    (E.TopSideRight, "Top Side Right"),
    (E.TopRearCenter, "Top Rear Center"),
    (E.TopRearLeft, "Top Rear Left"),
    (E.TopRearRight, "Top Rear Right"),
    (E.BottomCenter, "Bottom Center"),
    (E.BottomLeftCenter, "Bottom Left Center"),
    (E.BottomRightCenter, "Bottom Right Center")
  ]

/-- `PwAudioChannel::toString`: the `switch` over the fixed labels (which are pairwise distinct
in C++), then the `default` branch.  `%1` is filled with the decimal numeral. -/
def PwAudioChannel.toString (E : PwAudioChannel.Enum) (value : Nat) : String :=
  match (PwAudioChannel.fixedNames E).lookup value with
  | some name => name
  | none =>
    if value ≥ E.AuxRangeStart ∧ value ≤ E.AuxRangeEnd then
      "Aux " ++ Nat.repr (value - E.AuxRangeStart + 1)
    else if value ≥ E.CustomRangeStart then
      "Custom " ++ Nat.repr (value - E.CustomRangeStart + 1)
    else
      "Unknown"

/-- The enumerators with the values of `enum spa_audio_channel` (`spa/param/audio/raw.h`), used
in the examples. -/
def PwAudioChannel.spa : PwAudioChannel.Enum :=
  { FrontLeft := PwAudioChannel.FrontLeft,
    FrontRight := PwAudioChannel.FrontRight,
    Unknown := 0,
    NA := 1,
    Mono := 2,
    FrontCenter := 5,
    FrontLeftCenter := 9,
    FrontRightCenter := 10,
    FrontLeftWide := 23,
    FrontRightWide := 24,
    FrontCenterHigh := 27,
    FrontLeftHigh := 26,
    FrontRightHigh := 28,
    LowFrequencyEffects := 6,
    LowFrequencyEffects2 := 25,
    LowFrequencyEffectsLeft := 33,
    LowFrequencyEffectsRight := 34,
    SideLeft := 7,
    SideRight := 8,
    RearCenter := 11,
    RearLeft := 12,
    RearRight := 13,
    RearLeftCenter := 21,
    RearRightCenter := 22,
    TopCenter := 14,
    TopFrontCenter := 16,
    TopFrontLeft := 15,
    TopFrontRight := 17,
    TopFrontLeftCenter := 29,
    TopFrontRightCenter := 30,
    TopSideLeft := 31,
    TopSideRight := 32,
    TopRearCenter := 19,
    TopRearLeft := 18,
    TopRearRight := 20,
    BottomCenter := 35,
    BottomLeftCenter := 36,
    BottomRightCenter := 37,
    AuxRangeStart := 0x1000,
    AuxRangeEnd := 0x1fff,
    CustomRangeStart := 0x10000 }

/-! ## The `float` arithmetic of the source -/

/-- A value of the C++ type `float` (IEEE 754 binary32).  Every finite value is an integer
multiple of `2^-149`, the smallest subnormal, and is held as that integer; the two zeros are one
value, as they are for `==`.  `overflow` stands for the infinities and NaN, which no statement
below reaches. -/
inductive Binary32 where
  | finite (units : Int)
  | overflow
deriving DecidableEq

/-- The least `shift`, from `start` on, for which `n / 2^shift` fits in the 24 bits of a
binary32 significand (`fuel` bounds the search). -/
def Binary32.findShift : Nat → Nat → Nat → Nat
  | 0, shift, _ => shift
  | fuel + 1, shift, n =>
    if n / 2 ^ shift < 2 ^ 24 then shift else Binary32.findShift fuel (shift + 1) n

/-- Whether `units · 2^-149` is a binary32 value: at most 24 significant bits, and not above the
largest finite value `(2^24 - 1) · 2^104`. -/
def Binary32.representable : Binary32 → Bool
  | .finite units =>
    decide (units.natAbs % 2 ^ Binary32.findShift 300 0 units.natAbs = 0
      ∧ units.natAbs ≤ (2 ^ 24 - 1) * 2 ^ 253)
  | .overflow => true

/-- Rounding to binary32, to nearest with ties to even, of the exact value `n · 2^-298`, the
product of two finite values.  The result is in units of `2^-149`.  The spacing of binary32 is
`2^-149` up to `2^-125` (`shift = 149`) and keeps 24 significant bits above. -/
def Binary32.roundUnits (n : Nat) : Nat :=
  let shift := Binary32.findShift 450 149 n
  let quotient := n / 2 ^ shift
  let rest := n % 2 ^ shift
  let half := 2 ^ (shift - 1)
  let rounded :=
    if rest > half ∨ (rest = half ∧ quotient % 2 = 1) then quotient + 1 else quotient
  rounded * 2 ^ (shift - 149)

/-- The product of two `float` values: the exact product, rounded once. -/
def Binary32.mul : Binary32 → Binary32 → Binary32
  | .finite a, .finite b =>
    let units := Binary32.roundUnits (a.natAbs * b.natAbs)
    if units > (2 ^ 24 - 1) * 2 ^ 253 then Binary32.overflow
    else Binary32.finite (a.sign * b.sign * (units : Int))
  | _, _ => Binary32.overflow

instance : Mul Binary32 := ⟨Binary32.mul⟩

/-- The `float` written `1e-16f`: `15111573 · 2^-77`. -/
def Binary32.tiny : Binary32 := Binary32.finite (Int.ofNat (15111573 * 2 ^ 72))

/-- The `float` `2^-60`. -/
def Binary32.tinier : Binary32 := Binary32.finite (Int.ofNat (2 ^ 89))

end Pipewire

/-! # Runtime directories (`src/core/paths.cpp`)

Log output is not part of this model.  The file system, the environment and `QDir::filePath` are
parameters of the methods. -/

namespace Core

/-- The state of one of the directories of `QsPaths` (`DirState`). -/
inductive DirState where
  | Unknown
  | Ready
  | Failed
deriving DecidableEq, Repr

/-- What `paths.cpp` reads from outside the program. -/
structure PathsEnv where
  /-- The value of `qEnvironmentVariable("XDG_RUNTIME_DIR")`, empty when the variable is unset. -/
  xdgRuntimeDir : String
  /-- The result of `QDir(dir).filePath(name)`. -/
  filePath : String → String → String
  /-- The result of `QDir(dir).mkpath(".")`. -/
  mkpath : String → Bool
  /-- The value of `InstanceInfo::CURRENT.instanceId`. -/
  instanceId : String

/-- The fields of `QsPaths` used by the runtime directory getters.  A directory is held as its
path; a directory field means nothing until the matching state is `Ready`. -/
structure QsPaths where
  shellId : String
  pathId : String
  mBaseRunDir : String
  mShellRunDir : String
  mInstanceRunDir : String
  baseRunState : DirState
  shellRunState : DirState
  instanceRunState : DirState
deriving DecidableEq

/-- A `QsPaths` on which no getter has run yet. -/
def QsPaths.fresh (shellId pathId : String) : QsPaths :=
  { shellId := shellId, pathId := pathId, mBaseRunDir := "", mShellRunDir := "",
    mInstanceRunDir := "", baseRunState := DirState.Unknown, shellRunState := DirState.Unknown,
    instanceRunState := DirState.Unknown }

/-- `QsPaths::baseRunDir`; `none` is the null pointer.  The fallback string has no `%1` place
marker, so `arg(getuid())` leaves it as it is. -/
def QsPaths.baseRunDir (env : PathsEnv) (self : QsPaths) : QsPaths × Option String :=
  let s1 :=
    if self.baseRunState = DirState.Unknown then
      let runtimeDir := if env.xdgRuntimeDir.isEmpty then "/run/user/$1" else env.xdgRuntimeDir
      let s := { self with mBaseRunDir := env.filePath runtimeDir "quickshell" }
      if env.mkpath s.mBaseRunDir = false then { s with baseRunState := DirState.Failed }
      else { s with baseRunState := DirState.Ready }
    else self
  if s1.baseRunState = DirState.Failed then (s1, none) else (s1, some s1.mBaseRunDir)

/-- `QsPaths::shellRunDir`; `none` is the null pointer. -/
def QsPaths.shellRunDir (env : PathsEnv) (self : QsPaths) : QsPaths × Option String :=
  let s1 :=
    if self.shellRunState = DirState.Unknown then
      let r := self.baseRunDir env
      match r.2 with
      | some baseRunDir =>
        let s :=
          { r.1 with
            mShellRunDir := env.filePath (env.filePath baseRunDir "by-shell") r.1.shellId }
        if env.mkpath s.mShellRunDir = false then { s with shellRunState := DirState.Failed }
        else { s with shellRunState := DirState.Ready }
      | none => { r.1 with shellRunState := DirState.Failed }
    else self
  if s1.shellRunState = DirState.Failed then (s1, none) else (s1, some s1.mShellRunDir)

/-- `QsPaths::instanceRunDir`; `none` is the null pointer.  The final test reads
`shellRunState`, as the source does. -/
def QsPaths.instanceRunDir (env : PathsEnv) (self : QsPaths) : QsPaths × Option String :=
  let s1 :=
    if self.instanceRunState = DirState.Unknown then
      let r := self.baseRunDir env
      match r.2 with
      | none => { r.1 with instanceRunState := DirState.Failed }
      | some runDir =>
        let byIdDir := env.filePath runDir "by-id"
        let s := { r.1 with mInstanceRunDir := env.filePath byIdDir env.instanceId }
        if env.mkpath s.mInstanceRunDir = false then
          { s with instanceRunState := DirState.Failed }
        else { s with instanceRunState := DirState.Ready }
    else self
  if s1.shellRunState = DirState.Failed then (s1, none) else (s1, some s1.mInstanceRunDir)

/-- `QDir::filePath` for a relative name in a directory without trailing separator, used in the
examples. -/
def joinPath (dir name : String) : String := dir ++ "/" ++ name

/-- An environment in which no directory can be created. -/
def PathsEnv.readOnly : PathsEnv :=
  { xdgRuntimeDir := "/run/user/1000", filePath := joinPath, mkpath := fun _ => false,
    instanceId := "abc" }

/-- An environment in which every directory can be created except the one of the shell. -/
def PathsEnv.noShellDir : PathsEnv :=
  { xdgRuntimeDir := "/run/user/1000", filePath := joinPath,
    mkpath := fun dir => decide (dir ≠ "/run/user/1000/quickshell/by-shell/shell"),
    instanceId := "abc" }

end Core

/-! # Proxy windows (`src/window/proxywindow.cpp`) -/

namespace Window

/-- A `QColor` in RGB, as the four components read by `redF`, `greenF`, `blueF` and `alphaF`
(exact arithmetic; `fromRgbF` is the constructor).  Two colours differ when a component
differs. -/
structure QColor (F : Type) where
  redF : F
  greenF : F
  blueF : F
  alphaF : F
deriving DecidableEq

/-- Observable effects of `ProxyWindowBase::setColor`. -/
inductive WindowEffect (F : Type) where
  /-- Qt signal `ProxyWindowBase::colorChanged`, emitted by the proxy itself. -/
  | colorChanged
  /-- The call `window->setColor(color)`. -/
  | windowSetColor (color : QColor F)
  /-- The call `window->setFormat(mSurfaceFormat)`. -/
  | windowSetFormat
deriving DecidableEq

/-- The fields of `ProxyWindowBase` used by `color` and `setColor`.  `window` tells whether the
backing window pointer is non-null. -/
structure ProxyWindowBase (F : Type) where
  window : Bool
  mColor : QColor F
deriving DecidableEq

/-- `ProxyWindowBase::color`. -/
def ProxyWindowBase.color {F : Type} (self : ProxyWindowBase F) : QColor F := self.mColor

/-- `ProxyWindowBase::setColor`.  The new colour is stored first; the comparison in the branch
without window then reads the field that was just written. -/
def ProxyWindowBase.setColor {F : Type} [Mul F] [DecidableEq F] (self : ProxyWindowBase F)
    (color : QColor F) : ProxyWindowBase F × List (WindowEffect F) :=
  let s1 := { self with mColor := color }
  if s1.window = false then
    (s1, if color ≠ s1.mColor then [WindowEffect.colorChanged] else [])
  else
    let premultiplied : QColor F :=
      { redF := color.redF * color.alphaF, greenF := color.greenF * color.alphaF,
        blueF := color.blueF * color.alphaF, alphaF := color.alphaF }
    (s1, [WindowEffect.windowSetColor premultiplied, WindowEffect.windowSetFormat])

end Window

namespace Pipewire

/-! ## Shared lemmas -/

section Lemmas

set_option linter.unusedSectionVars false

variable {F : Type} [Field F] [DecidableEq F]

theorem updateVolumeFromParam_aligned (cbrt : F → F) (self : PwNodeBoundAudio F)
    (param : SpaPod F) (ls : List F) (cs : List Nat)
    (hv : param.channelVolumes = some ls) (hc : param.channelMap = some cs)
    (hlen : ls.length = cs.length) :
    self.updateVolumeFromParam cbrt param =
      some ({ self with mChannels := cs, mVolumes := ls.map cbrt },
        (if self.mChannels ≠ cs then [Effect.log LogLevel.info] else [])
          ++ (if self.mVolumes ≠ ls.map cbrt then [Effect.log LogLevel.info] else [])
          ++ (if self.mChannels ≠ cs then [Effect.channelsChanged] else [])
          ++ (if self.mVolumes ≠ ls.map cbrt then [Effect.volumesChanged] else [])) := by
  obtain ⟨m, c, v⟩ := self
  simp only [PwNodeBoundAudio.updateVolumeFromParam, hv, hc, List.length_map, hlen]
  by_cases h1 : c = cs <;> by_cases h2 : v = ls.map cbrt <;> simp [h1, h2]

theorem updateVolumeFromParam_lengths (cbrt : F → F) (self s1 : PwNodeBoundAudio F)
    (param : SpaPod F) (t : List (Effect F))
    (hinv : self.mChannels.length = self.mVolumes.length)
    (h : self.updateVolumeFromParam cbrt param = some (s1, t)) :
    s1.mChannels.length = s1.mVolumes.length ∧ s1.mMuted = self.mMuted := by
  cases hv : param.channelVolumes with
  | none => simp [PwNodeBoundAudio.updateVolumeFromParam, hv] at h
  | some ls =>
    cases hc : param.channelMap with
    | none => simp [PwNodeBoundAudio.updateVolumeFromParam, hv, hc] at h
    | some cs =>
      by_cases hlen : ls.length = cs.length
      · rw [updateVolumeFromParam_aligned cbrt self param ls cs hv hc hlen] at h
        simp only [Option.some.injEq, Prod.mk.injEq] at h
        rw [← h.1]
        simp [hlen]
      · simp only [PwNodeBoundAudio.updateVolumeFromParam, hv, hc, List.length_map, ne_eq, hlen,
          not_false_eq_true, ↓reduceIte, Option.some.injEq, Prod.mk.injEq] at h
        rw [← h.1]
        exact ⟨hinv, rfl⟩

theorem updateMutedFromParam_arrays (self : PwNodeBoundAudio F) (param : SpaPod F) :
    (self.updateMutedFromParam param).1.mChannels = self.mChannels
      ∧ (self.updateMutedFromParam param).1.mVolumes = self.mVolumes := by
  dsimp only [PwNodeBoundAudio.updateMutedFromParam]
  split_ifs <;> simp

theorem setMuted_arrays (node : PwNode F) (self : PwNodeBoundAudio F) (muted : Bool) :
    (self.setMuted node muted).1.mChannels = self.mChannels
      ∧ (self.setMuted node muted).1.mVolumes = self.mVolumes := by
  unfold PwNodeBoundAudio.setMuted
  split_ifs
  · simp
  · simp
  · cases node.device with
    | none => simp
    | some d => dsimp only; split_ifs <;> simp

theorem setVolumes_cases (node : PwNode F) (self : PwNodeBoundAudio F) (volumes : List F) :
    (self.setVolumes node volumes).1 = self
      ∨ (volumes.length = self.mVolumes.length
          ∧ (self.setVolumes node volumes).1 = { self with mVolumes := volumes }) := by
  unfold PwNodeBoundAudio.setVolumes
  split_ifs with h1 h2 h3
  · simp
  · simp
  · simp
  · have hl : volumes.length = self.mVolumes.length := not_not.mp h3
    cases node.device with
    | none => simp [hl]
    | some d => dsimp only; split_ifs <;> simp [hl]

theorem setVolumes_lengths (node : PwNode F) (self : PwNodeBoundAudio F) (volumes : List F)
    (hinv : self.mChannels.length = self.mVolumes.length) :
    (self.setVolumes node volumes).1.mChannels.length
      = (self.setVolumes node volumes).1.mVolumes.length := by
  rcases setVolumes_cases node self volumes with h | ⟨hl, h⟩
  · rw [h]; exact hinv
  · rw [h]; simp [hinv, hl]

theorem setAverageVolume_lengths (node : PwNode F) (self : PwNodeBoundAudio F) (volume : F)
    (hinv : self.mChannels.length = self.mVolumes.length) :
    (self.setAverageVolume node volume).1.mChannels.length
      = (self.setAverageVolume node volume).1.mVolumes.length := by
  unfold PwNodeBoundAudio.setAverageVolume
  exact setVolumes_lengths node self _ hinv

theorem run_lengths (cbrt : F → F) (node : PwNode F) (call : AudioCall F)
    (s s1 : PwNodeBoundAudio F) (t : List (Effect F))
    (hinv : s.mChannels.length = s.mVolumes.length)
    (h : call.run cbrt node s = some (s1, t)) :
    s1.mChannels.length = s1.mVolumes.length := by
  cases call with
  | onSpaParam id index param =>
    simp only [AudioCall.run, PwNodeBoundAudio.onSpaParam] at h
    split_ifs at h with hid
    · cases hu : s.updateVolumeFromParam cbrt param with
      | none => simp [hu] at h
      | some r =>
        obtain ⟨s2, t2⟩ := r
        simp only [hu, Option.some.injEq, Prod.mk.injEq] at h
        have h2 := (updateVolumeFromParam_lengths cbrt s s2 param t2 hinv hu).1
        have h3 := updateMutedFromParam_arrays s2 param
        rw [← h.1, h3.1, h3.2]
        exact h2
    · simp only [Option.some.injEq, Prod.mk.injEq] at h
      rw [← h.1]; exact hinv
  | setVolumes volumes =>
    simp only [AudioCall.run, Option.some.injEq] at h
    have := setVolumes_lengths node s volumes hinv
    rw [h] at this; exact this
  | setAverageVolume volume =>
    simp only [AudioCall.run, Option.some.injEq] at h
    have := setAverageVolume_lengths node s volume hinv
    rw [h] at this; exact this
  | setMuted muted =>
    simp only [AudioCall.run, Option.some.injEq] at h
    have := setMuted_arrays node s muted
    rw [h] at this
    rw [this.1, this.2]; exact hinv
  | onUnbind =>
    simp only [AudioCall.run, Option.some.injEq, PwNodeBoundAudio.onUnbind, Prod.mk.injEq] at h
    rw [← h.1]
    rfl

theorem reachable_aligned (cbrt : F → F) (s : PwNodeBoundAudio F)
    (h : PwNodeBoundAudio.Reachable cbrt s) : s.mChannels.length = s.mVolumes.length := by
  induction h with
  | init => rfl
  | step node call s s1 t _ hrun ih => exact run_lengths cbrt node call s s1 t ih hrun

theorem setMuted_unbound (node : PwNode F) (self : PwNodeBoundAudio F) (muted : Bool)
    (h : node.proxy = false) :
    self.setMuted node muted = (self, [Effect.log LogLevel.critical]) := by
  simp [PwNodeBoundAudio.setMuted, h]

theorem setVolumes_unbound (node : PwNode F) (self : PwNodeBoundAudio F) (volumes : List F)
    (h : node.proxy = false) :
    self.setVolumes node volumes = (self, [Effect.log LogLevel.critical]) := by
  simp [PwNodeBoundAudio.setVolumes, h]

theorem setMuted_same (node : PwNode F) (self : PwNodeBoundAudio F) (muted : Bool)
    (hb : node.proxy = true) (h : muted = self.mMuted) :
    self.setMuted node muted = (self, []) := by
  simp [PwNodeBoundAudio.setMuted, hb, h]

theorem setVolumes_same (node : PwNode F) (self : PwNodeBoundAudio F) (volumes : List F)
    (hb : node.proxy = true) (h : volumes = self.mVolumes) :
    self.setVolumes node volumes = (self, []) := by
  simp [PwNodeBoundAudio.setVolumes, hb, h]

theorem setVolumes_mismatch (node : PwNode F) (self : PwNodeBoundAudio F) (volumes : List F)
    (hb : node.proxy = true) (h : volumes.length ≠ self.mVolumes.length) :
    self.setVolumes node volumes = (self, [Effect.log LogLevel.critical]) := by
  have hne : volumes ≠ self.mVolumes := fun he => h (by rw [he])
  simp [PwNodeBoundAudio.setVolumes, hb, h, hne]

theorem setMuted_device (node : PwNode F) (self : PwNodeBoundAudio F) (muted : Bool)
    (device : PwDevice F) (hb : node.proxy = true) (hd : node.device = some device)
    (hne : muted ≠ self.mMuted) :
    self.setMuted node muted =
      if device.setMuted node.routeDevice muted = false then
        (self, [Effect.deviceSetMuted node.routeDevice muted])
      else
        ({ self with mMuted := muted },
          [Effect.deviceSetMuted node.routeDevice muted, Effect.log LogLevel.info,
            Effect.mutedChanged]) := by
  simp [PwNodeBoundAudio.setMuted, hb, hd, hne]

theorem setMuted_direct (node : PwNode F) (self : PwNodeBoundAudio F) (muted : Bool)
    (hb : node.proxy = true) (hd : node.device = none) (hne : muted ≠ self.mMuted) :
    self.setMuted node muted =
      ({ self with mMuted := muted },
        [Effect.log LogLevel.info,
          Effect.nodeSetParam SPA_PARAM_Props
            { channelVolumes := none, channelMap := none, mute := some muted },
          Effect.mutedChanged]) := by
  simp [PwNodeBoundAudio.setMuted, hb, hd, hne]

theorem setVolumes_device (node : PwNode F) (self : PwNodeBoundAudio F) (volumes : List F)
    (device : PwDevice F) (hb : node.proxy = true) (hd : node.device = some device)
    (hne : volumes ≠ self.mVolumes) (hlen : volumes.length = self.mVolumes.length) :
    self.setVolumes node volumes =
      if device.setVolumes node.routeDevice volumes = false then
        (self, [Effect.deviceSetVolumes node.routeDevice volumes])
      else
        ({ self with mVolumes := volumes },
          [Effect.deviceSetVolumes node.routeDevice volumes, Effect.log LogLevel.info,
            Effect.volumesChanged]) := by
  simp [PwNodeBoundAudio.setVolumes, hb, hd, hne, hlen]

theorem setVolumes_direct (node : PwNode F) (self : PwNodeBoundAudio F) (volumes : List F)
    (hb : node.proxy = true) (hd : node.device = none)
    (hne : volumes ≠ self.mVolumes) (hlen : volumes.length = self.mVolumes.length) :
    self.setVolumes node volumes =
      ({ self with mVolumes := volumes },
        [Effect.log LogLevel.info,
          Effect.nodeSetParam SPA_PARAM_Props
            { channelVolumes := some (volumes.map fun volume => volume * volume * volume),
              channelMap := none, mute := none },
          Effect.volumesChanged]) := by
  simp [PwNodeBoundAudio.setVolumes, hb, hd, hne, hlen]

theorem averageVolume_eq_specMean (self : PwNodeBoundAudio F) :
    self.averageVolume = specMean self.mVolumes := by
  simp only [PwNodeBoundAudio.averageVolume, specMean, List.sum_eq_foldl]

theorem setVolumes_accepted (node : PwNode F) (self : PwNodeBoundAudio F) (volumes : List F)
    (hb : node.proxy = true) (hlen : volumes.length = self.mVolumes.length)
    (hd : ∀ device, node.device = some device →
      device.setVolumes node.routeDevice volumes = true) :
    (self.setVolumes node volumes).1 = { self with mVolumes := volumes } := by
  by_cases he : volumes = self.mVolumes
  · rw [setVolumes_same node self volumes hb he, he]
  · cases hdev : node.device with
    | none => rw [setVolumes_direct node self volumes hb hdev he hlen]
    | some d =>
      rw [setVolumes_device node self volumes d hb hdev he hlen, if_neg (by simp [hd d hdev])]

theorem setAverageVolume_volumes (self : PwNodeBoundAudio F) (volume : F) :
    (self.mVolumes.map fun oldVolume =>
        if (if self.averageVolume = 0 then 0 else volume / self.averageVolume) = 0 then volume
        else oldVolume * (if self.averageVolume = 0 then 0 else volume / self.averageVolume))
      = specAverageVolumes self.mVolumes volume := by
  rw [averageVolume_eq_specMean]
  unfold specAverageVolumes
  by_cases h0 : specMean self.mVolumes = 0
  · simp [h0]
  · simp only [h0, if_false]
    apply List.map_congr_left
    intro x _
    by_cases hv : volume / specMean self.mVolumes = 0
    · have hv0 : volume = 0 := by
        rcases div_eq_zero_iff.mp hv with h | h
        · exact h
        · exact absurd h h0
      simp [hv0]
    · simp [hv]

theorem onSpaParam_aligned (cbrt : F → F) (self : PwNodeBoundAudio F)
    (param : SpaPod F) (ls : List F) (cs : List Nat)
    (hv : param.channelVolumes = some ls) (hc : param.channelMap = some cs)
    (hlen : ls.length = cs.length) :
    self.onSpaParam cbrt SPA_PARAM_Props 0 param =
      some ({ mMuted := param.mute.getD false, mChannels := cs, mVolumes := ls.map cbrt },
        ((if self.mChannels ≠ cs then [Effect.log LogLevel.info] else [])
          ++ (if self.mVolumes ≠ ls.map cbrt then [Effect.log LogLevel.info] else [])
          ++ (if self.mChannels ≠ cs then [Effect.channelsChanged] else [])
          ++ (if self.mVolumes ≠ ls.map cbrt then [Effect.volumesChanged] else []))
          ++ (if param.mute.getD false ≠ self.mMuted then
                [Effect.log LogLevel.info, Effect.mutedChanged]
              else [])) := by
  have hm : (match param.mute with
      | some b => b
      | none => false) = param.mute.getD false := by
    cases param.mute <;> rfl
  simp only [PwNodeBoundAudio.onSpaParam, and_self, if_true,
    updateVolumeFromParam_aligned cbrt self param ls cs hv hc hlen,
    PwNodeBoundAudio.updateMutedFromParam, hm]
  by_cases h : param.mute.getD false = self.mMuted
  · simp [h]
  · simp [h]

end Lemmas

/-! ## The real cube root -/

theorem stdCbrt_of_nonneg (x : ℝ) (hx : 0 ≤ x) : stdCbrt x = x ^ ((3 : ℝ)⁻¹) := by
  simp [stdCbrt, hx]

theorem stdCbrt_of_neg (x : ℝ) (hx : x < 0) : stdCbrt x = -((-x) ^ ((3 : ℝ)⁻¹)) := by
  simp [stdCbrt, not_le.mpr hx]

theorem rpow_third_pow (x : ℝ) (hx : 0 ≤ x) : (x ^ ((3 : ℝ)⁻¹)) ^ 3 = x := by
  have h := Real.rpow_inv_natCast_pow hx (by norm_num : (3 : ℕ) ≠ 0)
  simpa using h

theorem pow_rpow_third (x : ℝ) (hx : 0 ≤ x) : (x ^ 3) ^ ((3 : ℝ)⁻¹) = x := by
  have h := Real.pow_rpow_inv_natCast hx (by norm_num : (3 : ℕ) ≠ 0)
  simpa using h

theorem stdCbrt_mul_self (x : ℝ) : stdCbrt x * stdCbrt x * stdCbrt x = x := by
  rcases le_or_lt 0 x with hx | hx
  · rw [stdCbrt_of_nonneg x hx]
    have h := rpow_third_pow x hx
    calc x ^ ((3 : ℝ)⁻¹) * x ^ ((3 : ℝ)⁻¹) * x ^ ((3 : ℝ)⁻¹)
        = (x ^ ((3 : ℝ)⁻¹)) ^ 3 := by ring
      _ = x := h
  · rw [stdCbrt_of_neg x hx]
    have h := rpow_third_pow (-x) (by linarith)
    calc -((-x) ^ ((3 : ℝ)⁻¹)) * -((-x) ^ ((3 : ℝ)⁻¹)) * -((-x) ^ ((3 : ℝ)⁻¹))
        = -(((-x) ^ ((3 : ℝ)⁻¹)) ^ 3) := by ring
      _ = x := by rw [h]; ring

theorem stdCbrt_cube (v : ℝ) : stdCbrt (v * v * v) = v := by
  rcases le_or_lt 0 v with hv | hv
  · have h3 : v * v * v = v ^ 3 := by ring
    have hnn : 0 ≤ v ^ 3 := pow_nonneg hv 3
    rw [h3, stdCbrt_of_nonneg _ hnn, pow_rpow_third v hv]
  · have h3 : v * v * v = -((-v) ^ 3) := by ring
    have hpos : 0 < (-v) ^ 3 := pow_pos (by linarith) 3
    have hneg : -((-v) ^ 3) < 0 := by linarith
    rw [h3, stdCbrt_of_neg _ hneg, neg_neg, pow_rpow_third (-v) (by linarith), neg_neg]

theorem stdCbrt_eighth : stdCbrt (0.125 : ℝ) = 0.5 := by
  have h := stdCbrt_cube (0.5 : ℝ)
  have h2 : (0.5 : ℝ) * 0.5 * 0.5 = 0.125 := by norm_num
  rw [h2] at h
  exact h

theorem map_stdCbrt_cube (values : List ℝ) :
    (values.map fun volume => volume * volume * volume).map stdCbrt = values := by
  induction values with
  | nil => rfl
  | cons v vs ih =>
    simp only [List.map_cons, List.map_map] at ih ⊢
    rw [stdCbrt_cube v, ih]

/-! ## The invariant of the cache and the rejected calls -/

section Claims

set_option linter.unusedSectionVars false

variable {F : Type} [Field F] [DecidableEq F]

/-- C1: in every state of an audio binding that is reachable from the fresh (empty) one by
`onSpaParam`, `setVolumes`, `setAverageVolume`, `setMuted` and `onUnbind` calls, the cached
channels and the cached volumes have the same length. -/
theorem channels_volumes_same_length (cbrt : F → F) (s : PwNodeBoundAudio F)
    (h : PwNodeBoundAudio.Reachable cbrt s) : s.channels.length = s.volumes.length :=
  reachable_aligned cbrt s h

/-- The invariant of C1 at the binding reached by one `Props` result with two channels. -/
theorem channels_volumes_same_length_witness :
    PwNodeBoundAudio.Reachable (fun x : ℚ => x) ⟨false, [3, 4], [1, 1]⟩
      ∧ (⟨false, [3, 4], [1, 1]⟩ : PwNodeBoundAudio ℚ).channels.length
          = (⟨false, [3, 4], [1, 1]⟩ : PwNodeBoundAudio ℚ).volumes.length :=
  have h : PwNodeBoundAudio.Reachable (fun x : ℚ => x) ⟨false, [3, 4], [1, 1]⟩ :=
    PwNodeBoundAudio.Reachable.step PwNode.boundNoDevice
      (AudioCall.onSpaParam 2 0 ⟨some [1, 1], some [3, 4], none⟩) PwNodeBoundAudio.init _
      [Effect.log LogLevel.info, Effect.log LogLevel.info, Effect.channelsChanged,
        Effect.volumesChanged]
      PwNodeBoundAudio.Reachable.init (by decide)
  ⟨h, channels_volumes_same_length _ _ h⟩

/-- C2: on a binding in a reachable state, `setVolumes` with a vector whose length differs from
the cached channel count is rejected: the cache (volumes, channels, mute) is unchanged and the
trace holds no device call, no command to the node and no notification. -/
theorem setVolumes_wrong_length_rejected (cbrt : F → F) (node : PwNode F)
    (self : PwNodeBoundAudio F) (volumes : List F)
    (hreach : PwNodeBoundAudio.Reachable cbrt self)
    (hlen : volumes.length ≠ self.channels.length) :
    (self.setVolumes node volumes).1 = self ∧ silent (self.setVolumes node volumes).2 = true := by
  have hinv := reachable_aligned cbrt self hreach
  have hl : volumes.length ≠ self.mVolumes.length := by
    rw [← hinv]; exact hlen
  cases hb : node.proxy with
  | false => rw [setVolumes_unbound node self volumes hb]; exact ⟨rfl, rfl⟩
  | true => rw [setVolumes_mismatch node self volumes hb hl]; exact ⟨rfl, rfl⟩

/-- The rejection of C2 on a bound node without device: one volume for two cached channels. -/
theorem setVolumes_wrong_length_rejected_witness :
    PwNodeBoundAudio.Reachable (fun x : ℚ => x) ⟨false, [3, 4], [1, 1]⟩
      ∧ ([2] : List ℚ).length ≠ (⟨false, [3, 4], [1, 1]⟩ : PwNodeBoundAudio ℚ).channels.length
      ∧ ((⟨false, [3, 4], [1, 1]⟩ : PwNodeBoundAudio ℚ).setVolumes PwNode.boundNoDevice [2]).1
          = ⟨false, [3, 4], [1, 1]⟩
      ∧ silent ((⟨false, [3, 4], [1, 1]⟩ : PwNodeBoundAudio ℚ).setVolumes
          PwNode.boundNoDevice [2]).2 = true :=
  have h : PwNodeBoundAudio.Reachable (fun x : ℚ => x) ⟨false, [3, 4], [1, 1]⟩ :=
    PwNodeBoundAudio.Reachable.step PwNode.boundNoDevice
      (AudioCall.onSpaParam 2 0 ⟨some [1, 1], some [3, 4], none⟩) PwNodeBoundAudio.init _
      [Effect.log LogLevel.info, Effect.log LogLevel.info, Effect.channelsChanged,
        Effect.volumesChanged]
      PwNodeBoundAudio.Reachable.init (by decide)
  ⟨h, by decide,
    setVolumes_wrong_length_rejected (fun x : ℚ => x) PwNode.boundNoDevice _ [2] h (by decide)⟩

/-- C3: `setMuted` and `setVolumes` do nothing when the node has no live proxy or when the new
value equals the cached one: the cache is unchanged and the trace holds no device call, no
command to the node and no notification. -/
theorem setMuted_setVolumes_noop (node : PwNode F) (self : PwNodeBoundAudio F) (muted : Bool)
    (volumes : List F) :
    ((node.proxy = false ∨ muted = self.isMuted) →
        (self.setMuted node muted).1 = self ∧ silent (self.setMuted node muted).2 = true)
      ∧ ((node.proxy = false ∨ volumes = self.volumes) →
        (self.setVolumes node volumes).1 = self
          ∧ silent (self.setVolumes node volumes).2 = true) := by
  refine ⟨fun h => ?_, fun h => ?_⟩
  · cases hb : node.proxy with
    | false => rw [setMuted_unbound node self muted hb]; exact ⟨rfl, rfl⟩
    | true =>
      have he : muted = self.mMuted := by
        rcases h with h | h
        · rw [hb] at h; cases h
        · exact h
      rw [setMuted_same node self muted hb he]; exact ⟨rfl, rfl⟩
  · cases hb : node.proxy with
    | false => rw [setVolumes_unbound node self volumes hb]; exact ⟨rfl, rfl⟩
    | true =>
      have he : volumes = self.mVolumes := by
        rcases h with h | h
        · rw [hb] at h; cases h
        · exact h
      rw [setVolumes_same node self volumes hb he]; exact ⟨rfl, rfl⟩

/-- The no-ops of C3 on a bound node: the cached mute state and the cached volumes again. -/
theorem setMuted_setVolumes_noop_witness :
    (((⟨true, [3, 4], [1, 1]⟩ : PwNodeBoundAudio ℚ).setMuted PwNode.boundNoDevice true).1
        = ⟨true, [3, 4], [1, 1]⟩
      ∧ silent ((⟨true, [3, 4], [1, 1]⟩ : PwNodeBoundAudio ℚ).setMuted
          PwNode.boundNoDevice true).2 = true)
    ∧ (((⟨true, [3, 4], [1, 1]⟩ : PwNodeBoundAudio ℚ).setVolumes PwNode.boundNoDevice [1, 1]).1
        = ⟨true, [3, 4], [1, 1]⟩
      ∧ silent ((⟨true, [3, 4], [1, 1]⟩ : PwNodeBoundAudio ℚ).setVolumes
          PwNode.boundNoDevice [1, 1]).2 = true) :=
  ⟨(setMuted_setVolumes_noop PwNode.boundNoDevice ⟨true, [3, 4], [1, 1]⟩ true [1, 1]).1
      (Or.inr rfl),
    (setMuted_setVolumes_noop PwNode.boundNoDevice ⟨true, [3, 4], [1, 1]⟩ true [1, 1]).2
      (Or.inr rfl)⟩

/-! ## Control through the device or directly to the node -/

/-- C4: on a bound node with a device attached, when the device control call returns `false`,
`setMuted` / `setVolumes` leave the cache untouched and emit no notification; when the call is
made (the value differs from the cache and, for volumes, has the cached length) and returns
`true`, the cache takes the requested value and exactly one notification of that field is
emitted. -/
theorem device_result_decides_cache (node : PwNode F) (self : PwNodeBoundAudio F)
    (device : PwDevice F) (muted : Bool) (volumes : List F)
    (hb : node.proxy = true) (hd : node.device = some device) :
    (device.setMuted node.routeDevice muted = false →
        (self.setMuted node muted).1 = self
          ∧ notifications (self.setMuted node muted).2 = [])
      ∧ (device.setMuted node.routeDevice muted = true → muted ≠ self.isMuted →
        (self.setMuted node muted).1 = { self with mMuted := muted }
          ∧ notifications (self.setMuted node muted).2 = [Effect.mutedChanged])
      ∧ (device.setVolumes node.routeDevice volumes = false →
        (self.setVolumes node volumes).1 = self
          ∧ notifications (self.setVolumes node volumes).2 = [])
      ∧ (device.setVolumes node.routeDevice volumes = true → volumes ≠ self.volumes →
          volumes.length = self.volumes.length →
        (self.setVolumes node volumes).1 = { self with mVolumes := volumes }
          ∧ notifications (self.setVolumes node volumes).2 = [Effect.volumesChanged]) := by
  refine ⟨fun hr => ?_, fun hr hne => ?_, fun hr => ?_, fun hr hne hlen => ?_⟩
  · by_cases he : muted = self.mMuted
    · rw [setMuted_same node self muted hb he]; exact ⟨rfl, rfl⟩
    · rw [setMuted_device node self muted device hb hd he, if_pos hr]; exact ⟨rfl, rfl⟩
  · rw [setMuted_device node self muted device hb hd hne, if_neg (by simp [hr])]
    exact ⟨rfl, rfl⟩
  · by_cases he : volumes = self.mVolumes
    · rw [setVolumes_same node self volumes hb he]; exact ⟨rfl, rfl⟩
    · by_cases hl : volumes.length = self.mVolumes.length
      · rw [setVolumes_device node self volumes device hb hd he hl, if_pos hr]
        exact ⟨rfl, rfl⟩
      · rw [setVolumes_mismatch node self volumes hb hl]; exact ⟨rfl, rfl⟩
  · rw [setVolumes_device node self volumes device hb hd hne hlen, if_neg (by simp [hr])]
    exact ⟨rfl, rfl⟩

/-- The two outcomes of C4 for `setMuted`, on a refusing and on an accepting device. -/
theorem device_result_decides_cache_witness :
    (((PwNodeBoundAudio.init : PwNodeBoundAudio ℚ).setMuted
          (PwNode.boundVia (PwDevice.refusing 7) 0) true).1 = PwNodeBoundAudio.init
        ∧ notifications ((PwNodeBoundAudio.init : PwNodeBoundAudio ℚ).setMuted
          (PwNode.boundVia (PwDevice.refusing 7) 0) true).2 = [])
      ∧ (((PwNodeBoundAudio.init : PwNodeBoundAudio ℚ).setMuted
          (PwNode.boundVia (PwDevice.accepting 7) 0) true).1 = ⟨true, [], []⟩
        ∧ notifications ((PwNodeBoundAudio.init : PwNodeBoundAudio ℚ).setMuted
          (PwNode.boundVia (PwDevice.accepting 7) 0) true).2 = [Effect.mutedChanged]) :=
  ⟨(device_result_decides_cache (PwNode.boundVia (PwDevice.refusing 7) 0)
      (PwNodeBoundAudio.init : PwNodeBoundAudio ℚ) (PwDevice.refusing 7) true [] rfl rfl).1 rfl,
    (device_result_decides_cache (PwNode.boundVia (PwDevice.accepting 7) 0)
      (PwNodeBoundAudio.init : PwNodeBoundAudio ℚ) (PwDevice.accepting 7) true [] rfl rfl).2.1
      rfl (by decide)⟩

/-- C5, as stated, fails: a bound node with a device attached and `routeDevice = -1` is not
device-routed, and `setMuted` still calls the device, with route `-1`. -/
theorem routing_exclusive_counterexample :
    (PwNode.boundVia (PwDevice.accepting 7) (-1) : PwNode ℚ).routeDevice = -1
      ∧ ((PwNodeBoundAudio.init : PwNodeBoundAudio ℚ).setMuted
          (PwNode.boundVia (PwDevice.accepting 7) (-1)) true).2
        = [Effect.deviceSetMuted (-1) true, Effect.log LogLevel.info, Effect.mutedChanged]
      ∧ (((PwNodeBoundAudio.init : PwNodeBoundAudio ℚ).setMuted
          (PwNode.boundVia (PwDevice.accepting 7) (-1)) true).2.any Effect.isDeviceCall) = true
      ∧ ((⟨false, [3], [1]⟩ : PwNodeBoundAudio ℚ).setVolumes
          (PwNode.boundVia (PwDevice.accepting 7) (-1)) [2]).2
        = [Effect.deviceSetVolumes (-1) [2], Effect.log LogLevel.info, Effect.volumesChanged] := by
  decide

/-- C5, amended: the route of a control call follows the presence of a device alone.  With a
device attached, `setMuted` and `setVolumes` send no direct command to the node, whatever
`routeDevice` is; with no device attached they never call the device. -/
theorem routing_follows_device_presence (node : PwNode F) (self : PwNodeBoundAudio F)
    (muted : Bool) (volumes : List F) :
    (node.device.isSome = true →
        ((self.setMuted node muted).2 ++ (self.setVolumes node volumes).2).any
          Effect.isNodeCommand = false)
      ∧ (node.device = none →
        ((self.setMuted node muted).2 ++ (self.setVolumes node volumes).2).any
          Effect.isDeviceCall = false) := by
  refine ⟨fun hd => ?_, fun hd => ?_⟩
  · obtain ⟨d, hd⟩ := Option.isSome_iff_exists.mp hd
    unfold PwNodeBoundAudio.setMuted PwNodeBoundAudio.setVolumes
    rw [hd]
    dsimp only
    split_ifs <;> simp [Effect.isNodeCommand]
  · unfold PwNodeBoundAudio.setMuted PwNodeBoundAudio.setVolumes
    rw [hd]
    dsimp only
    split_ifs <;> simp [Effect.isDeviceCall]

/-- The amended C5 with a device at route `-1` and with no device. -/
theorem routing_follows_device_presence_witness :
    ((((PwNodeBoundAudio.init : PwNodeBoundAudio ℚ).setMuted
          (PwNode.boundVia (PwDevice.accepting 7) (-1)) true).2
        ++ ((PwNodeBoundAudio.init : PwNodeBoundAudio ℚ).setVolumes
          (PwNode.boundVia (PwDevice.accepting 7) (-1)) []).2).any Effect.isNodeCommand = false)
      ∧ ((((PwNodeBoundAudio.init : PwNodeBoundAudio ℚ).setMuted
          PwNode.boundNoDevice true).2
        ++ ((PwNodeBoundAudio.init : PwNodeBoundAudio ℚ).setVolumes
          PwNode.boundNoDevice []).2).any Effect.isDeviceCall = false) :=
  ⟨(routing_follows_device_presence (PwNode.boundVia (PwDevice.accepting 7) (-1))
      (PwNodeBoundAudio.init : PwNodeBoundAudio ℚ) true []).1 rfl,
    (routing_follows_device_presence PwNode.boundNoDevice
      (PwNodeBoundAudio.init : PwNodeBoundAudio ℚ) true []).2 rfl⟩

/-! ## The average volume -/

/-- C6: on a bound node whose device, if any, accepts the command, `setAverageVolume(v)` leaves
the cached volumes equal to the literal `v` on every channel when the arithmetic mean of the
cached volumes is `0`, and to `vols[i] * (v / mean)` on every channel otherwise; channels and
mute state are untouched. -/
theorem setAverageVolume_scales (node : PwNode F) (self : PwNodeBoundAudio F) (v : F)
    (hb : node.proxy = true)
    (hd : ∀ device, node.device = some device →
      device.setVolumes node.routeDevice (specAverageVolumes self.volumes v) = true) :
    (self.setAverageVolume node v).1
      = { self with mVolumes := specAverageVolumes self.volumes v } := by
  unfold PwNodeBoundAudio.setAverageVolume
  dsimp only
  rw [setAverageVolume_volumes self v]
  refine setVolumes_accepted node self _ hb ?_ hd
  unfold specAverageVolumes
  split_ifs <;> simp

/-- The two examples of C6: `[0, 0]` with target `0.5`, and `[0.2, 0.4]` with target `0.6`. -/
theorem setAverageVolume_scales_witness :
    ((⟨false, [3, 4], [0, 0]⟩ : PwNodeBoundAudio ℚ).setAverageVolume
        PwNode.boundNoDevice (1 / 2)).1 = ⟨false, [3, 4], [1 / 2, 1 / 2]⟩
      ∧ ((⟨false, [3, 4], [2 / 10, 4 / 10]⟩ : PwNodeBoundAudio ℚ).setAverageVolume
        PwNode.boundNoDevice (6 / 10)).1 = ⟨false, [3, 4], [4 / 10, 8 / 10]⟩ :=
  ⟨(setAverageVolume_scales PwNode.boundNoDevice ⟨false, [3, 4], [0, 0]⟩ (1 / 2) rfl
      (fun _ h => by cases h)).trans
      (by norm_num [specAverageVolumes, specMean, PwNodeBoundAudio.volumes]),
    (setAverageVolume_scales PwNode.boundNoDevice ⟨false, [3, 4], [2 / 10, 4 / 10]⟩ (6 / 10) rfl
      (fun _ h => by cases h)).trans
      (by norm_num [specAverageVolumes, specMean, PwNodeBoundAudio.volumes])⟩

/-! ## Decoding a `Props` result -/

/-- C7: for a `Props` result at index 0 whose `channelVolumes` array `ls` and `channelMap` array
`cs` have the same length, `onSpaParam` returns, and afterwards the cached volumes are the cube
roots of `ls`, in order, and the cached channels are `cs`. -/
theorem onSpaParam_decodes_props (cbrt : F → F) (self : PwNodeBoundAudio F)
    (param : SpaPod F) (ls : List F) (cs : List Nat)
    (hv : param.channelVolumes = some ls) (hc : param.channelMap = some cs)
    (hlen : ls.length = cs.length) :
    ∃ s t, self.onSpaParam cbrt SPA_PARAM_Props 0 param = some (s, t)
      ∧ s.volumes = ls.map cbrt ∧ s.channels = cs :=
  ⟨_, _, onSpaParam_aligned cbrt self param ls cs hv hc hlen, rfl, rfl⟩

/-- The example of C7: linear `[0.125, 0.125]` on `[FrontLeft, FrontRight]` is cached as
`[0.5, 0.5]`. -/
theorem onSpaParam_decodes_props_witness :
    ∃ s t, (PwNodeBoundAudio.init : PwNodeBoundAudio ℝ).onSpaParam stdCbrt SPA_PARAM_Props 0
        ⟨some [0.125, 0.125], some [PwAudioChannel.FrontLeft, PwAudioChannel.FrontRight], none⟩
          = some (s, t)
      ∧ s.volumes = [0.5, 0.5]
      ∧ s.channels = [PwAudioChannel.FrontLeft, PwAudioChannel.FrontRight] := by
  obtain ⟨s, t, h, hvol, hch⟩ := onSpaParam_decodes_props stdCbrt
    (PwNodeBoundAudio.init : PwNodeBoundAudio ℝ)
    ⟨some [0.125, 0.125], some [PwAudioChannel.FrontLeft, PwAudioChannel.FrontRight], none⟩
    [0.125, 0.125] [PwAudioChannel.FrontLeft, PwAudioChannel.FrontRight] rfl rfl rfl
  refine ⟨s, t, h, ?_, hch⟩
  rw [hvol]
  simp only [List.map_cons, List.map_nil, stdCbrt_eighth]

/-- C8, as stated, fails in the `float` arithmetic of the code.  `1e-16f` and `2^-60` are two
different `float` values whose cubes, computed as `volume * volume * volume` with one rounding
per product, are both `0`.  A direct `setVolumes` caches the value and sends the payload `[0]`
in both cases, so no decode function, `std::cbrt` included, gives back both cached values.
Moreover the object that is sent carries no channel map, and `onSpaParam` has no result on
it. -/
theorem float_cube_loses_small_volumes :
    Binary32.tiny.representable = true ∧ Binary32.tinier.representable = true
      ∧ Binary32.tiny ≠ Binary32.tinier
      ∧ Binary32.tiny * Binary32.tiny * Binary32.tiny = Binary32.finite 0
      ∧ Binary32.tinier * Binary32.tinier * Binary32.tinier = Binary32.finite 0
      ∧ (⟨false, [3], [Binary32.finite 0]⟩ : PwNodeBoundAudio Binary32).setVolumes
          PwNode.boundNoDevice [Binary32.tiny]
        = (⟨false, [3], [Binary32.tiny]⟩,
            [Effect.log LogLevel.info,
              Effect.nodeSetParam SPA_PARAM_Props ⟨some [Binary32.finite 0], none, none⟩,
              Effect.volumesChanged])
      ∧ (⟨false, [3], [Binary32.finite 0]⟩ : PwNodeBoundAudio Binary32).setVolumes
          PwNode.boundNoDevice [Binary32.tinier]
        = (⟨false, [3], [Binary32.tinier]⟩,
            [Effect.log LogLevel.info,
              Effect.nodeSetParam SPA_PARAM_Props ⟨some [Binary32.finite 0], none, none⟩,
              Effect.volumesChanged])
      ∧ (∀ cbrt : Binary32 → Binary32,
          ¬(cbrt (Binary32.tiny * Binary32.tiny * Binary32.tiny) = Binary32.tiny
            ∧ cbrt (Binary32.tinier * Binary32.tinier * Binary32.tinier) = Binary32.tinier))
      ∧ (∀ cbrt : Binary32 → Binary32,
          (⟨false, [3], [Binary32.tiny]⟩ : PwNodeBoundAudio Binary32).onSpaParam cbrt
            SPA_PARAM_Props 0 ⟨some [Binary32.finite 0], none, none⟩ = none) := by
  have hne : Binary32.tiny ≠ Binary32.tinier := by decide
  have h1 : Binary32.tiny * Binary32.tiny * Binary32.tiny = Binary32.finite 0 := by decide
  have h2 : Binary32.tinier * Binary32.tinier * Binary32.tinier = Binary32.finite 0 := by
    decide
  refine ⟨by decide, by decide, hne, h1, h2, by decide, by decide, ?_, ?_⟩
  · intro cbrt hc
    rw [h1] at hc
    rw [h2] at hc
    exact hne (hc.1.symm.trans hc.2)
  · intro cbrt
    rfl

/-- C8, amended: in exact real arithmetic, with float rounding left out, the decode transform
(cube root) and the encode transform (cube) are inverse to each other: for every real `x`,
`cube(cbrt(x)) = x`, and for every real `v`, `cbrt(cube(v)) = v`; hence the cube roots of the
values in the payload that a direct `setVolumes(values)` sends are exactly the volumes that
`setVolumes` cached. -/
theorem cube_and_cbrt_inverse :
    (∀ x : ℝ, stdCbrt x * stdCbrt x * stdCbrt x = x)
      ∧ (∀ v : ℝ, stdCbrt (v * v * v) = v)
      ∧ ∀ (node : PwNode ℝ) (self : PwNodeBoundAudio ℝ) (values : List ℝ),
          node.proxy = true → node.device = none → values ≠ self.volumes →
          values.length = self.volumes.length →
          ∃ payload : List ℝ,
            (self.setVolumes node values).2
                = [Effect.log LogLevel.info,
                    Effect.nodeSetParam SPA_PARAM_Props ⟨some payload, none, none⟩,
                    Effect.volumesChanged]
              ∧ (self.setVolumes node values).1.volumes = values
              ∧ payload.map stdCbrt = (self.setVolumes node values).1.volumes := by
  refine ⟨stdCbrt_mul_self, stdCbrt_cube, ?_⟩
  intro node self values hb hd hne hlen
  refine ⟨values.map fun volume => volume * volume * volume, ?_, ?_, ?_⟩
  · rw [setVolumes_direct node self values hb hd hne hlen]
  · rw [setVolumes_direct node self values hb hd hne hlen]; rfl
  · rw [setVolumes_direct node self values hb hd hne hlen]
    exact map_stdCbrt_cube values

/-- The round trip of the amended C8 for `setVolumes([0.5, 0.5])` on a bound node without
device. -/
theorem cube_and_cbrt_inverse_witness :
    ∃ payload : List ℝ,
      ((⟨false, [3, 4], [0, 0]⟩ : PwNodeBoundAudio ℝ).setVolumes PwNode.boundNoDevice
          [0.5, 0.5]).2
          = [Effect.log LogLevel.info,
              Effect.nodeSetParam SPA_PARAM_Props ⟨some payload, none, none⟩,
              Effect.volumesChanged]
        ∧ ((⟨false, [3, 4], [0, 0]⟩ : PwNodeBoundAudio ℝ).setVolumes PwNode.boundNoDevice
          [0.5, 0.5]).1.volumes = [0.5, 0.5]
        ∧ payload.map stdCbrt = [0.5, 0.5] := by
  obtain ⟨payload, h1, h2, h3⟩ := cube_and_cbrt_inverse.2.2 PwNode.boundNoDevice
    ⟨false, [3, 4], [0, 0]⟩ [0.5, 0.5] rfl rfl (by norm_num [PwNodeBoundAudio.volumes]) rfl
  exact ⟨payload, h1, h2, h3.trans h2⟩

/-- C9: for a `Props` result at index 0 with arrays of equal length, `onSpaParam` emits
channels-changed once exactly when the decoded channels differ from the cached ones,
volumes-changed once exactly when the decoded volumes differ from the cached ones, and
mute-changed once exactly when the mute flag read from the payload differs from the cached one,
each independently of the others; a second delivery of the same payload changes nothing and has
no effect at all. -/
theorem onSpaParam_notifies_per_field (cbrt : F → F) (self : PwNodeBoundAudio F)
    (param : SpaPod F) (ls : List F) (cs : List Nat)
    (hv : param.channelVolumes = some ls) (hc : param.channelMap = some cs)
    (hlen : ls.length = cs.length) :
    ∃ s t, self.onSpaParam cbrt SPA_PARAM_Props 0 param = some (s, t)
      ∧ notifications t
          = (if self.channels ≠ cs then [Effect.channelsChanged] else [])
            ++ (if self.volumes ≠ ls.map cbrt then [Effect.volumesChanged] else [])
            ++ (if self.isMuted ≠ param.mute.getD false then [Effect.mutedChanged] else [])
      ∧ s.onSpaParam cbrt SPA_PARAM_Props 0 param = some (s, []) := by
  refine ⟨_, _, onSpaParam_aligned cbrt self param ls cs hv hc hlen, ?_, ?_⟩
  · simp only [PwNodeBoundAudio.channels, PwNodeBoundAudio.volumes, PwNodeBoundAudio.isMuted]
    by_cases h1 : self.mChannels = cs <;> by_cases h2 : self.mVolumes = ls.map cbrt <;>
      by_cases h3 : self.mMuted = param.mute.getD false <;>
      simp [h1, h2, h3, notifications, Effect.isNotification, eq_comm]
  · rw [onSpaParam_aligned cbrt _ param ls cs hv hc hlen]
    simp

/-- The example of C9: a first `Props` result with two channels and mute set. -/
theorem onSpaParam_notifies_per_field_witness :
    ∃ s t, (PwNodeBoundAudio.init : PwNodeBoundAudio ℚ).onSpaParam (fun x => x)
        SPA_PARAM_Props 0 ⟨some [1, 1], some [3, 4], some true⟩ = some (s, t)
      ∧ notifications t
          = [Effect.channelsChanged, Effect.volumesChanged, Effect.mutedChanged]
      ∧ s.onSpaParam (fun x => x) SPA_PARAM_Props 0 ⟨some [1, 1], some [3, 4], some true⟩
          = some (s, []) := by
  obtain ⟨s, t, h, hn, h2⟩ := onSpaParam_notifies_per_field (fun x : ℚ => x)
    PwNodeBoundAudio.init ⟨some [1, 1], some [3, 4], some true⟩ [1, 1] [3, 4] rfl rfl rfl
  exact ⟨s, t, h, hn.trans (by decide), h2⟩

/-- C10: in every state, `onUnbind` leaves channels and volumes empty, keeps the mute state, and
emits channels-changed and then volumes-changed, once each and nothing else; this holds as well
when both sequences were already empty. -/
theorem onUnbind_clears_and_notifies (self : PwNodeBoundAudio F) :
    self.onUnbind.1.channels = [] ∧ self.onUnbind.1.volumes = []
      ∧ self.onUnbind.1.isMuted = self.isMuted
      ∧ self.onUnbind.2 = [Effect.channelsChanged, Effect.volumesChanged]
      ∧ (PwNodeBoundAudio.init : PwNodeBoundAudio F).onUnbind
          = (PwNodeBoundAudio.init, [Effect.channelsChanged, Effect.volumesChanged]) :=
  ⟨rfl, rfl, rfl, rfl, rfl⟩

end Claims

/-! ## Lemmas on dictionaries and the property cache -/

theorem QMap.mem_insert (m : List (String × String)) (key value : String)
    (x : String × String) (h : x ∈ QMap.insert m key value) : x ∈ m ∨ x = (key, value) := by
  induction m with
  | nil =>
    simp only [QMap.insert, List.mem_singleton] at h
    exact Or.inr h
  | cons entry rest ih =>
    simp only [QMap.insert] at h
    split_ifs at h with he
    · rcases List.mem_cons.mp h with h | h
      · exact Or.inr h
      · exact Or.inl (List.mem_cons_of_mem _ h)
    · rcases List.mem_cons.mp h with h | h
      · exact Or.inl (h ▸ List.mem_cons_self _ _)
      · rcases ih h with h | h
        · exact Or.inl (List.mem_cons_of_mem _ h)
        · exact Or.inr h

theorem QMap.key_insert_self (m : List (String × String)) (key value : String) :
    (key, value) ∈ QMap.insert m key value := by
  induction m with
  | nil => simp [QMap.insert]
  | cons entry rest ih =>
    simp only [QMap.insert]
    split_ifs with he
    · exact List.mem_cons_self _ _
    · exact List.mem_cons_of_mem _ ih

theorem QMap.key_insert_other (m : List (String × String)) (key value k : String)
    (h : ∃ w, (k, w) ∈ m) : ∃ w, (k, w) ∈ QMap.insert m key value := by
  induction m with
  | nil =>
    obtain ⟨w, hw⟩ := h
    cases hw
  | cons entry rest ih =>
    obtain ⟨w, hw⟩ := h
    simp only [QMap.insert]
    split_ifs with he
    · rcases List.mem_cons.mp hw with hw | hw
      · refine ⟨value, ?_⟩
        have hk : k = key := by rw [← he, ← hw]
        rw [hk]
        exact List.mem_cons_self _ _
      · exact ⟨w, List.mem_cons_of_mem _ hw⟩
    · rcases List.mem_cons.mp hw with hw | hw
      · exact ⟨w, hw ▸ List.mem_cons_self _ _⟩
      · obtain ⟨w1, hw1⟩ := ih ⟨w, hw⟩
        exact ⟨w1, List.mem_cons_of_mem _ hw1⟩

theorem QMap.mem_fold (items : SpaDict) (m : List (String × String)) (x : String × String)
    (h : x ∈ items.foldl (fun properties item => QMap.insert properties item.1 item.2) m) :
    x ∈ m ∨ x ∈ items := by
  induction items generalizing m with
  | nil => exact Or.inl h
  | cons item rest ih =>
    simp only [List.foldl_cons] at h
    rcases ih _ h with h | h
    · rcases QMap.mem_insert m item.1 item.2 x h with h | h
      · exact Or.inl h
      · exact Or.inr (h ▸ List.mem_cons_self _ _)
    · exact Or.inr (List.mem_cons_of_mem _ h)

theorem QMap.key_fold (items : SpaDict) (m : List (String × String)) (k : String)
    (h : (∃ w, (k, w) ∈ m) ∨ ∃ w, (k, w) ∈ items) :
    ∃ w, (k, w) ∈ items.foldl (fun properties item => QMap.insert properties item.1 item.2) m := by
  induction items generalizing m with
  | nil =>
    rcases h with h | ⟨w, hw⟩
    · exact h
    · cases hw
  | cons item rest ih =>
    simp only [List.foldl_cons]
    apply ih
    rcases h with h | ⟨w, hw⟩
    · exact Or.inl (QMap.key_insert_other m item.1 item.2 k h)
    · rcases List.mem_cons.mp hw with hw | hw
      · left
        refine ⟨item.2, ?_⟩
        have hk : k = item.1 := by rw [← hw]
        rw [hk]
        exact QMap.key_insert_self m item.1 item.2
      · exact Or.inr ⟨w, hw⟩

theorem nodup_keys_value (items : SpaDict) (k v w : String)
    (hnd : (items.map Prod.fst).Nodup) (hv : (k, v) ∈ items) (hw : (k, w) ∈ items) : v = w := by
  induction items with
  | nil => cases hv
  | cons item rest ih =>
    simp only [List.map_cons, List.nodup_cons, List.mem_map, not_exists, not_and] at hnd
    rcases List.mem_cons.mp hv with hv | hv <;> rcases List.mem_cons.mp hw with hw | hw
    · have := hv.trans hw.symm
      exact (Prod.mk.inj this).2
    · exact absurd (by rw [← hv]) (hnd.1 (k, w) hw)
    · exact absurd (by rw [← hw]) (hnd.1 (k, v) hv)
    · exact ih hnd.2 hv hw

section NodeLemmas

variable {F : Type}

theorem audio_onInfo_notifications (info : PwNodeInfo) :
    notifications (PwNodeBoundAudio.onInfo info : List (Effect F)) = [] := by
  unfold PwNodeBoundAudio.onInfo notifications
  split_ifs
  · rw [List.filter_eq_nil_iff]
    intro e he
    obtain ⟨param, _, hp⟩ := List.mem_filterMap.mp he
    split_ifs at hp
    cases hp
    simp [Effect.isNotification]
  · rfl

theorem onInfo_no_props (toInt : String → Option Int) (self : PwNode F) (info : PwNodeInfo)
    (h : info.changeProps = false) :
    (self.onInfo toInt info).1 = self
      ∧ notifications (self.onInfo toInt info).2 = [] := by
  simp only [PwNode.onInfo, h, Bool.false_eq_true, if_false, List.nil_append, true_and]
  cases self.boundData with
  | none => rfl
  | some b => exact audio_onInfo_notifications info

theorem onInfo_props_properties (toInt : String → Option Int) (self : PwNode F)
    (info : PwNodeInfo) (h : info.changeProps = true) :
    (self.onInfo toInt info).1.properties
      = info.props.foldl (fun properties item => QMap.insert properties item.1 item.2) [] := by
  simp only [PwNode.onInfo, h, if_true]

theorem onInfo_props_notifications (toInt : String → Option Int) (self : PwNode F)
    (info : PwNodeInfo) (h : info.changeProps = true) :
    notifications (self.onInfo toInt info).2 = [Effect.propertiesChanged] := by
  have hcase : ∀ b : Option (PwNodeBoundAudio F), List.filter Effect.isNotification
      (match b with
        | some _ => (PwNodeBoundAudio.onInfo info : List (Effect F))
        | none => []) = [] := by
    intro b
    cases b with
    | none => rfl
    | some b => exact audio_onInfo_notifications info
  unfold PwNode.onInfo notifications
  simp only [h, if_true, List.filter_append, hcase, List.append_nil]
  cases self.device with
  | none => rfl
  | some d =>
    dsimp only
    cases spa_dict_lookup info.props "card.profile.device" with
    | none => rfl
    | some r =>
      dsimp only
      cases toInt r <;> rfl

theorem initMediaClass_fields (self : PwNode F) (props : SpaDict) :
    (self.initMediaClass props).routeDevice = self.routeDevice
      ∧ (self.initMediaClass props).boundData = self.boundData
      ∧ (self.initMediaClass props).device = self.device
      ∧ ((self.initMediaClass props).type, (self.initMediaClass props).isSink,
          (self.initMediaClass props).isStream)
          = (match spa_dict_lookup props SPA_KEY_MEDIA_CLASS with
            | some mediaClass =>
              if mediaClass = "Audio/Sink" then (PwNodeType.Audio, true, false)
              else if mediaClass = "Audio/Source" then (PwNodeType.Audio, false, false)
              else if mediaClass = "Stream/Output/Audio" then (PwNodeType.Audio, false, true)
              else if mediaClass = "Stream/Input/Audio" then (PwNodeType.Audio, true, true)
              else (self.type, self.isSink, self.isStream)
            | none => (self.type, self.isSink, self.isStream)) := by
  unfold PwNode.initMediaClass
  cases spa_dict_lookup props SPA_KEY_MEDIA_CLASS with
  | none => exact ⟨rfl, rfl, rfl, rfl⟩
  | some mediaClass =>
    dsimp only
    split_ifs <;> exact ⟨rfl, rfl, rfl, rfl⟩

theorem initNames_fields (self : PwNode F) (props : SpaDict) :
    (self.initNames props).routeDevice = self.routeDevice
      ∧ (self.initNames props).boundData = self.boundData
      ∧ (self.initNames props).device = self.device
      ∧ (self.initNames props).type = self.type
      ∧ (self.initNames props).isSink = self.isSink
      ∧ (self.initNames props).isStream = self.isStream := by
  unfold PwNode.initNames
  cases spa_dict_lookup props SPA_KEY_NODE_NAME <;>
    cases spa_dict_lookup props SPA_KEY_NODE_DESCRIPTION <;>
    cases spa_dict_lookup props PW_KEY_NODE_NICK <;>
    exact ⟨rfl, rfl, rfl, rfl, rfl, rfl⟩

theorem initDevice_fields (toInt : String → Option Int) (devices : Int → Option (PwDevice F))
    (self : PwNode F) (props : SpaDict) :
    (self.initDevice toInt devices props).1.routeDevice = self.routeDevice
      ∧ (self.initDevice toInt devices props).1.boundData = self.boundData
      ∧ (self.initDevice toInt devices props).1.type = self.type
      ∧ (self.initDevice toInt devices props).1.isSink = self.isSink
      ∧ (self.initDevice toInt devices props).1.isStream = self.isStream := by
  unfold PwNode.initDevice
  cases spa_dict_lookup props PW_KEY_DEVICE_ID with
  | none => exact ⟨rfl, rfl, rfl, rfl, rfl⟩
  | some deviceId =>
    dsimp only
    cases toInt deviceId with
    | none => exact ⟨rfl, rfl, rfl, rfl, rfl⟩
    | some id =>
      dsimp only
      cases devices id <;> exact ⟨rfl, rfl, rfl, rfl, rfl⟩

theorem initProps_fields (toInt : String → Option Int) (devices : Int → Option (PwDevice F))
    (self : PwNode F) (props : SpaDict) :
    (self.initProps toInt devices props).1.routeDevice = self.routeDevice
      ∧ (self.initProps toInt devices props).1.boundData
          = (if (self.initProps toInt devices props).1.type = PwNodeType.Audio then
              some PwNodeBoundAudio.init
            else self.boundData)
      ∧ ((self.initProps toInt devices props).1.type,
          (self.initProps toInt devices props).1.isSink,
          (self.initProps toInt devices props).1.isStream)
          = (match spa_dict_lookup props SPA_KEY_MEDIA_CLASS with
            | some mediaClass =>
              if mediaClass = "Audio/Sink" then (PwNodeType.Audio, true, false)
              else if mediaClass = "Audio/Source" then (PwNodeType.Audio, false, false)
              else if mediaClass = "Stream/Output/Audio" then (PwNodeType.Audio, false, true)
              else if mediaClass = "Stream/Input/Audio" then (PwNodeType.Audio, true, true)
              else (self.type, self.isSink, self.isStream)
            | none => (self.type, self.isSink, self.isStream)) := by
  have h1 := initMediaClass_fields self props
  have h2 := initNames_fields (self.initMediaClass props) props
  have h3 := initDevice_fields toInt devices ((self.initMediaClass props).initNames props) props
  rw [← h1.2.2.2]
  simp only [PwNode.initProps]
  split_ifs with ht
  · refine ⟨?_, rfl, ?_⟩
    · show (PwNode.initDevice toInt devices _ props).1.routeDevice = _
      rw [h3.1, h2.1, h1.1]
    · show ((PwNode.initDevice toInt devices _ props).1.type,
        (PwNode.initDevice toInt devices _ props).1.isSink,
        (PwNode.initDevice toInt devices _ props).1.isStream) = _
      rw [h3.2.2.1, h3.2.2.2.1, h3.2.2.2.2, h2.2.2.2.1, h2.2.2.2.2.1, h2.2.2.2.2.2]
  · refine ⟨?_, ?_, ?_⟩
    · rw [h3.1, h2.1, h1.1]
    · rw [h3.2.1, h2.2.1, h1.2.1]
    · rw [h3.2.2.1, h3.2.2.2.1, h3.2.2.2.2, h2.2.2.2.1, h2.2.2.2.2.1, h2.2.2.2.2.2]

theorem onInfo_device_route (toInt : String → Option Int) (self : PwNode F)
    (info : PwNodeInfo) :
    (self.onInfo toInt info).1.device = self.device
      ∧ (self.device = none → (self.onInfo toInt info).1.routeDevice = self.routeDevice) := by
  unfold PwNode.onInfo
  cases info.changeProps with
  | false => exact ⟨rfl, fun _ => rfl⟩
  | true =>
    simp only [if_true]
    cases hd : self.device with
    | none => exact ⟨hd.symm ▸ rfl, fun _ => rfl⟩
    | some d =>
      dsimp only
      cases spa_dict_lookup info.props "card.profile.device" with
      | none => exact ⟨hd, fun h => by cases h⟩
      | some r => exact ⟨rfl, fun h => by cases h⟩

theorem reachable_route_device (toInt : String → Option Int)
    (devices : Int → Option (PwDevice F)) (node : PwNode F)
    (h : PwNode.Reachable toInt devices node) :
    node.routeDevice ≠ -1 → node.device.isSome = true := by
  induction h with
  | fresh => intro hr; exact absurd rfl hr
  | initProps node props _ hroute _ =>
    intro hr
    rw [(initProps_fields toInt devices node props).1] at hr
    exact absurd hroute hr
  | bindHooks node _ ih => exact ih
  | onInfo node info _ ih =>
    intro hr
    have hf := onInfo_device_route toInt node info
    rw [hf.1]
    cases hd : node.device with
    | some d => rfl
    | none =>
      rw [hf.2 hd] at hr
      have := ih hr
      rw [hd] at this
      exact this
  | unbindHooks node _ _ =>
    intro hr
    have hu : node.unbindHooks.1.routeDevice = -1 := by
      unfold PwNode.unbindHooks
      cases node.boundData <;> rfl
    exact absurd hu hr

end NodeLemmas

/-! ## Channel names, classification, property cache and unbinding -/

section NodeClaims

variable {F : Type}

/-- C11: `PwAudioChannel::toString` on a value with no fixed table entry: a value in the Aux
range at offset `k` from the range start gives "Aux (k+1)", a value in the Custom range at offset
`k` from its start gives "Custom (k+1)", and every other value gives "Unknown".  The Custom range
starts after the end of the Aux range. -/
theorem toString_unmapped (E : PwAudioChannel.Enum) (value : Nat)
    (hdisj : E.AuxRangeEnd < E.CustomRangeStart)
    (hun : (PwAudioChannel.fixedNames E).lookup value = none) :
    (∀ k, value = E.AuxRangeStart + k → value ≤ E.AuxRangeEnd →
        PwAudioChannel.toString E value = "Aux " ++ Nat.repr (k + 1))
      ∧ (∀ k, value = E.CustomRangeStart + k →
        PwAudioChannel.toString E value = "Custom " ++ Nat.repr (k + 1))
      ∧ (¬(E.AuxRangeStart ≤ value ∧ value ≤ E.AuxRangeEnd) → value < E.CustomRangeStart →
        PwAudioChannel.toString E value = "Unknown") := by
  refine ⟨fun k hk hle => ?_, fun k hk => ?_, fun haux hlt => ?_⟩
  · have hge : value ≥ E.AuxRangeStart := by omega
    have hoff : value - E.AuxRangeStart + 1 = k + 1 := by omega
    simp only [PwAudioChannel.toString, hun, hge, hle, and_self, if_true, hoff]
  · have hnaux : ¬(value ≥ E.AuxRangeStart ∧ value ≤ E.AuxRangeEnd) := by omega
    have hge : value ≥ E.CustomRangeStart := by omega
    have hoff : value - E.CustomRangeStart + 1 = k + 1 := by omega
    simp only [PwAudioChannel.toString, hun, hnaux, if_false, hge, if_true, hoff]
  · have hnaux : ¬(value ≥ E.AuxRangeStart ∧ value ≤ E.AuxRangeEnd) := haux
    have hnc : ¬(value ≥ E.CustomRangeStart) := by omega
    simp only [PwAudioChannel.toString, hun, hnaux, if_false, hnc]

/-- The examples of C11 with the values of the SPA header: Aux offset 0, Custom offset 2, and an
unmapped value below both ranges. -/
theorem toString_unmapped_witness :
    PwAudioChannel.toString PwAudioChannel.spa 0x1000 = "Aux 1"
      ∧ PwAudioChannel.toString PwAudioChannel.spa 0x10002 = "Custom 3"
      ∧ PwAudioChannel.toString PwAudioChannel.spa 77 = "Unknown" :=
  ⟨((toString_unmapped PwAudioChannel.spa 0x1000 (by decide) (by decide)).1 0
      (by decide) (by decide)).trans (by decide),
    ((toString_unmapped PwAudioChannel.spa 0x10002 (by decide) (by decide)).2.1 2
      (by decide)).trans (by decide),
    (toString_unmapped PwAudioChannel.spa 77 (by decide) (by decide)).2.2
      (by decide) (by decide)⟩

/-- C12: `initProps` on a node that is not yet classified and has no binding classifies it as
Audio exactly when the media class is one of "Audio/Sink", "Audio/Source",
"Stream/Output/Audio", "Stream/Input/Audio", with `isSink` / `isStream` fixed per entry; any other
or missing media class leaves it Unknown; and an audio binding (a fresh one) is present afterwards
exactly when the node is classified as Audio. -/
theorem initProps_classifies (toInt : String → Option Int)
    (devices : Int → Option (PwDevice F)) (self : PwNode F) (props : SpaDict)
    (hfresh : self.type = PwNodeType.Unknown) (hnb : self.boundData = none) :
    ((self.initProps toInt devices props).1.type = PwNodeType.Audio ↔
        (spa_dict_lookup props SPA_KEY_MEDIA_CLASS = some "Audio/Sink"
          ∨ spa_dict_lookup props SPA_KEY_MEDIA_CLASS = some "Audio/Source"
          ∨ spa_dict_lookup props SPA_KEY_MEDIA_CLASS = some "Stream/Output/Audio"
          ∨ spa_dict_lookup props SPA_KEY_MEDIA_CLASS = some "Stream/Input/Audio"))
      ∧ (spa_dict_lookup props SPA_KEY_MEDIA_CLASS = some "Audio/Sink" →
          (self.initProps toInt devices props).1.isSink = true
            ∧ (self.initProps toInt devices props).1.isStream = false)
      ∧ (spa_dict_lookup props SPA_KEY_MEDIA_CLASS = some "Audio/Source" →
          (self.initProps toInt devices props).1.isSink = false
            ∧ (self.initProps toInt devices props).1.isStream = false)
      ∧ (spa_dict_lookup props SPA_KEY_MEDIA_CLASS = some "Stream/Output/Audio" →
          (self.initProps toInt devices props).1.isSink = false
            ∧ (self.initProps toInt devices props).1.isStream = true)
      ∧ (spa_dict_lookup props SPA_KEY_MEDIA_CLASS = some "Stream/Input/Audio" →
          (self.initProps toInt devices props).1.isSink = true
            ∧ (self.initProps toInt devices props).1.isStream = true)
      ∧ ((self.initProps toInt devices props).1.type ≠ PwNodeType.Audio →
          (self.initProps toInt devices props).1.type = PwNodeType.Unknown)
      ∧ ((self.initProps toInt devices props).1.boundData.isSome = true ↔
          (self.initProps toInt devices props).1.type = PwNodeType.Audio)
      ∧ ((self.initProps toInt devices props).1.type = PwNodeType.Audio →
          (self.initProps toInt devices props).1.boundData = some PwNodeBoundAudio.init) := by
  obtain ⟨_, hbd, hcls⟩ := initProps_fields toInt devices self props
  rw [hnb] at hbd
  have hbound : ((self.initProps toInt devices props).1.boundData.isSome = true ↔
      (self.initProps toInt devices props).1.type = PwNodeType.Audio)
      ∧ ((self.initProps toInt devices props).1.type = PwNodeType.Audio →
      (self.initProps toInt devices props).1.boundData = some PwNodeBoundAudio.init) := by
    rw [hbd]
    by_cases ht : (self.initProps toInt devices props).1.type = PwNodeType.Audio
    · simp [ht]
    · simp [ht]
  have hT := congrArg (fun x => x.1) hcls
  have hS := congrArg (fun x => x.2.1) hcls
  have hR := congrArg (fun x => x.2.2) hcls
  dsimp only at hT hS hR
  refine ⟨?_, ?_, ?_, ?_, ?_, ?_, hbound.1, hbound.2⟩
  all_goals
    cases hl : spa_dict_lookup props SPA_KEY_MEDIA_CLASS with
    | none =>
      rw [hl] at hT
      simp [hT, hfresh]
    | some mediaClass =>
      rw [hl] at hT hS hR
      dsimp only at hT hS hR
      simp only [hT, hS, hR]
      clear hT hS hR hbd hcls hbound
      split_ifs with h1 h2 h3 h4 <;> simp_all

/-- The example of C12: a fresh node whose media class is "Audio/Sink". -/
theorem initProps_classifies_witness :
    ((PwNode.fresh : PwNode ℚ).initProps readInt exampleDevices
        [("media.class", "Audio/Sink"), ("node.name", "speakers")]).1.type = PwNodeType.Audio
      ∧ ((PwNode.fresh : PwNode ℚ).initProps readInt exampleDevices
        [("media.class", "Audio/Sink"), ("node.name", "speakers")]).1.isSink = true
      ∧ ((PwNode.fresh : PwNode ℚ).initProps readInt exampleDevices
        [("media.class", "Audio/Sink"), ("node.name", "speakers")]).1.boundData.isSome = true :=
  have h := initProps_classifies readInt exampleDevices (PwNode.fresh : PwNode ℚ)
    [("media.class", "Audio/Sink"), ("node.name", "speakers")] rfl rfl
  ⟨h.1.mpr (Or.inl (by decide)), (h.2.1 (by decide)).1,
    h.2.2.2.2.2.2.1.mpr (h.1.mpr (Or.inl (by decide)))⟩

/-- C13: for an info event whose change mask has the properties flag, after `PwNode::onInfo` the
property cache holds entries of the event only (nothing of the previous cache survives unless the
event carries it), it has an entry for every key of the event, it holds every item of an event
whose keys are distinct, and properties-changed is emitted exactly once, whatever the old cache
was; for an event without the flag the node is unchanged and no notification is emitted. -/
theorem onInfo_replaces_properties (toInt : String → Option Int) (self : PwNode F)
    (info : PwNodeInfo) :
    (info.changeProps = true →
        (∀ k v, (k, v) ∈ (self.onInfo toInt info).1.properties → (k, v) ∈ info.props)
          ∧ (∀ k v, (k, v) ∈ info.props → ∃ w, (k, w) ∈ (self.onInfo toInt info).1.properties)
          ∧ ((info.props.map Prod.fst).Nodup →
              ∀ k v, (k, v) ∈ info.props → (k, v) ∈ (self.onInfo toInt info).1.properties)
          ∧ notifications (self.onInfo toInt info).2 = [Effect.propertiesChanged])
      ∧ (info.changeProps = false →
        (self.onInfo toInt info).1.properties = self.properties
          ∧ notifications (self.onInfo toInt info).2 = []) := by
  refine ⟨fun h => ?_, fun h => ?_⟩
  · have hsub : ∀ k v, (k, v) ∈ (self.onInfo toInt info).1.properties → (k, v) ∈ info.props := by
      intro k v hkv
      rw [onInfo_props_properties toInt self info h] at hkv
      rcases QMap.mem_fold info.props [] (k, v) hkv with h0 | h0
      · cases h0
      · exact h0
    have hkeys : ∀ k v, (k, v) ∈ info.props →
        ∃ w, (k, w) ∈ (self.onInfo toInt info).1.properties := by
      intro k v hkv
      rw [onInfo_props_properties toInt self info h]
      exact QMap.key_fold info.props [] k (Or.inr ⟨v, hkv⟩)
    refine ⟨hsub, hkeys, ?_, onInfo_props_notifications toInt self info h⟩
    intro hnd k v hkv
    obtain ⟨w, hw⟩ := hkeys k v hkv
    have hwv : v = w := nodup_keys_value info.props k v w hnd hkv (hsub k w hw)
    rw [hwv]
    exact hw
  · have h0 := onInfo_no_props toInt self info h
    exact ⟨by rw [h0.1], h0.2⟩

/-- The example of C13: an event with two properties replaces a cache that held another key. -/
theorem onInfo_replaces_properties_witness :
    (∀ k v, (k, v) ∈ (({ (PwNode.fresh : PwNode ℚ) with properties := [("old.key", "1")] }
          : PwNode ℚ).onInfo readInt
          ⟨true, false, [("node.name", "a"), ("media.class", "Audio/Sink")], []⟩).1.properties →
        (k, v) ∈ [("node.name", "a"), ("media.class", "Audio/Sink")])
      ∧ notifications (({ (PwNode.fresh : PwNode ℚ) with properties := [("old.key", "1")] }
          : PwNode ℚ).onInfo readInt
          ⟨true, false, [("node.name", "a"), ("media.class", "Audio/Sink")], []⟩).2
        = [Effect.propertiesChanged] :=
  have h := (onInfo_replaces_properties readInt
    ({ (PwNode.fresh : PwNode ℚ) with properties := [("old.key", "1")] } : PwNode ℚ)
    ⟨true, false, [("node.name", "a"), ("media.class", "Audio/Sink")], []⟩).1 rfl
  ⟨h.1, h.2.2.2⟩

/-- C14: after `PwNode::unbindHooks`, `routeDevice` is `-1` and the property cache is empty; the
effects are, in this order: the listener is removed, properties-changed is emitted, the binding's
`onUnbind` hook runs when a binding is present, the device is unreferenced when a device is
present.  With both present the hook's notifications come before the unref. -/
theorem unbindHooks_sequence (self : PwNode F) :
    self.unbindHooks.1.routeDevice = -1
      ∧ self.unbindHooks.1.properties = []
      ∧ Effect.propertiesChanged ∈ self.unbindHooks.2
      ∧ self.unbindHooks.2
          = [Effect.listenerRemove, Effect.propertiesChanged]
            ++ (match self.boundData with
                | some bound => bound.onUnbind.2
                | none => [])
            ++ (if self.device.isSome then [Effect.deviceUnref] else [])
      ∧ self.unbindHooks.1.boundData = self.boundData.map (fun bound => bound.onUnbind.1)
      ∧ self.unbindHooks.1.device = self.device
      ∧ (self.boundData.isSome = true → self.device.isSome = true →
          self.unbindHooks.2 = [Effect.listenerRemove, Effect.propertiesChanged,
            Effect.channelsChanged, Effect.volumesChanged, Effect.deviceUnref]) := by
  unfold PwNode.unbindHooks
  cases hb : self.boundData with
  | none =>
    cases hd : self.device with
    | none => simp [hd]
    | some d => simp [hd]
  | some b =>
    cases hd : self.device with
    | none => simp [hd, PwNodeBoundAudio.onUnbind]
    | some d => simp [hd, PwNodeBoundAudio.onUnbind]

/-- The order of C14 on a bound audio node that is routed through a device. -/
theorem unbindHooks_sequence_witness :
    ({ (PwNode.boundVia (PwDevice.accepting 1) 3 : PwNode ℚ) with
        boundData := some ⟨true, [3, 4], [1, 1]⟩ } : PwNode ℚ).unbindHooks.2
      = [Effect.listenerRemove, Effect.propertiesChanged, Effect.channelsChanged,
          Effect.volumesChanged, Effect.deviceUnref] :=
  (unbindHooks_sequence ({ (PwNode.boundVia (PwDevice.accepting 1) 3 : PwNode ℚ) with
    boundData := some ⟨true, [3, 4], [1, 1]⟩ } : PwNode ℚ)).2.2.2.2.2.2 rfl rfl

/-- C18: what the code does on the input where the claim fails.  The node has a device and
route `3`; a properties-changed event whose `card.profile.device` is not an integer is logged
and then still assigned: `routeDevice` becomes `0`, the value `toInt` returns on failure. -/
theorem onInfo_unparsable_route_overwrites :
    ((PwNode.boundVia (PwDevice.accepting 1) 3 : PwNode ℚ).onInfo readInt
        ⟨true, false, [("card.profile.device", "abc")], []⟩).1.routeDevice = 0
      ∧ ((PwNode.boundVia (PwDevice.accepting 1) 3 : PwNode ℚ).onInfo readInt
        ⟨true, false, [("card.profile.device", "abc")], []⟩).2
          = [Effect.log LogLevel.critical, Effect.propertiesChanged]
      ∧ ((PwNode.boundVia (PwDevice.accepting 1) 3 : PwNode ℚ).onInfo readInt
        ⟨true, false, [("node.name", "a")], []⟩).1.routeDevice = 3
      ∧ ((PwNode.boundVia (PwDevice.accepting 1) 3 : PwNode ℚ).onInfo readInt
        ⟨true, false, [("card.profile.device", "5")], []⟩).1.routeDevice = 5 := by
  decide

/-- C19, as stated, fails: after `initProps` (device `1` known), `bindHooks`, an info event that
selects route `3`, and a second `initProps` whose `device.id` names no known device, the node
has `routeDevice = 3` and no device. -/
theorem route_without_device_counterexample :
    (PwNode.runCalls readInt exampleDevices (PwNode.fresh : PwNode ℚ)
        [NodeCall.initProps [("device.id", "1")], NodeCall.bindHooks,
          NodeCall.onInfo ⟨true, false, [("card.profile.device", "3")], []⟩,
          NodeCall.initProps [("device.id", "2")]]).routeDevice = 3
      ∧ (PwNode.runCalls readInt exampleDevices (PwNode.fresh : PwNode ℚ)
        [NodeCall.initProps [("device.id", "1")], NodeCall.bindHooks,
          NodeCall.onInfo ⟨true, false, [("card.profile.device", "3")], []⟩,
          NodeCall.initProps [("device.id", "2")]]).device.isSome = false := by
  decide

/-- C19, amended: in every node state reachable from a fresh node by `initProps`, `bindHooks`,
`onInfo` and `unbindHooks` calls in which `initProps` runs only while `routeDevice` is `-1` (as at
construction and after `unbindHooks`), `routeDevice ≠ -1` implies that a device is present. -/
theorem route_implies_device (toInt : String → Option Int)
    (devices : Int → Option (PwDevice F)) (node : PwNode F)
    (h : PwNode.Reachable toInt devices node) (hr : node.routeDevice ≠ -1) :
    node.device.isSome = true :=
  reachable_route_device toInt devices node h hr

/-- The amended C19 on the node reached by `initProps`, `bindHooks` and an info event that
selects route `3`. -/
theorem route_implies_device_witness :
    (((((PwNode.fresh : PwNode ℚ).initProps readInt exampleDevices
          [("device.id", "1")]).1.bindHooks.1).onInfo readInt
        ⟨true, false, [("card.profile.device", "3")], []⟩).1).routeDevice = 3
      ∧ (((((PwNode.fresh : PwNode ℚ).initProps readInt exampleDevices
          [("device.id", "1")]).1.bindHooks.1).onInfo readInt
        ⟨true, false, [("card.profile.device", "3")], []⟩).1).device.isSome = true :=
  ⟨by decide,
    route_implies_device readInt exampleDevices _
      (PwNode.Reachable.onInfo _ _
        (PwNode.Reachable.bindHooks _
          (PwNode.Reachable.initProps _ _ PwNode.Reachable.fresh rfl)))
      (by decide)⟩

end NodeClaims

/-! ## Payloads with missing or mismatched properties -/

section PayloadClaims

set_option linter.unusedSectionVars false

variable {F : Type} [Field F] [DecidableEq F]

/-- C15: for a `Props` result at index 0 whose `channelVolumes` and `channelMap` arrays have
different lengths, `onSpaParam` returns, leaves the cached channels and volumes unchanged and
emits neither of their notifications; the mute extraction is still applied: the cached mute
state becomes the mute value of the payload, and mute-changed is emitted exactly when that value
differs from the cached one. -/
theorem onSpaParam_mismatch_still_mutes (cbrt : F → F) (self : PwNodeBoundAudio F)
    (param : SpaPod F) (ls : List F) (cs : List Nat)
    (hv : param.channelVolumes = some ls) (hc : param.channelMap = some cs)
    (hlen : ls.length ≠ cs.length) :
    ∃ s t, self.onSpaParam cbrt SPA_PARAM_Props 0 param = some (s, t)
      ∧ s.channels = self.channels ∧ s.volumes = self.volumes
      ∧ Effect.channelsChanged ∉ t ∧ Effect.volumesChanged ∉ t
      ∧ ∀ m, param.mute = some m →
          s.isMuted = m
            ∧ notifications t = (if m ≠ self.isMuted then [Effect.mutedChanged] else []) := by
  have hu : self.updateVolumeFromParam cbrt param
      = some (self, [Effect.log LogLevel.warning]) := by
    simp [PwNodeBoundAudio.updateVolumeFromParam, hv, hc, hlen]
  refine ⟨(self.updateMutedFromParam param).1,
    [Effect.log LogLevel.warning] ++ (self.updateMutedFromParam param).2, ?_, ?_, ?_, ?_, ?_, ?_⟩
  · simp [PwNodeBoundAudio.onSpaParam, hu]
  · exact (updateMutedFromParam_arrays self param).1
  · exact (updateMutedFromParam_arrays self param).2
  · dsimp only [PwNodeBoundAudio.updateMutedFromParam]
    split_ifs <;> simp
  · dsimp only [PwNodeBoundAudio.updateMutedFromParam]
    split_ifs <;> simp
  · intro m hm
    simp only [PwNodeBoundAudio.updateMutedFromParam, hm, PwNodeBoundAudio.isMuted]
    by_cases h : m = self.mMuted
    · simp [h, notifications, Effect.isNotification]
    · simp [h, notifications, Effect.isNotification]

/-- The example of C15: two volumes for one channel, with the mute flag set. -/
theorem onSpaParam_mismatch_still_mutes_witness :
    ∃ s t, (⟨false, [3, 4], [1, 1]⟩ : PwNodeBoundAudio ℚ).onSpaParam (fun x => x)
        SPA_PARAM_Props 0 ⟨some [2, 2], some [3], some true⟩ = some (s, t)
      ∧ s.channels = [3, 4] ∧ s.volumes = [1, 1] ∧ s.isMuted = true
      ∧ notifications t = [Effect.mutedChanged] := by
  obtain ⟨s, t, h, hch, hvol, _, _, hm⟩ := onSpaParam_mismatch_still_mutes (fun x : ℚ => x)
    ⟨false, [3, 4], [1, 1]⟩ ⟨some [2, 2], some [3], some true⟩ [2, 2] [3] rfl rfl (by decide)
  exact ⟨s, t, h, hch, hvol, (hm true rfl).1, (hm true rfl).2⟩

/-- C16: what the code does on the input where the claim fails.  The binding is muted and the
payload has no mute property: the local `muted` keeps its initial `false`, which is then stored,
and mute-changed is emitted. -/
theorem onSpaParam_absent_mute_unmutes :
    (⟨true, [3, 4], [1, 1]⟩ : PwNodeBoundAudio ℚ).onSpaParam (fun x => x) SPA_PARAM_Props 0
        ⟨some [1, 1], some [3, 4], none⟩
      = some (⟨false, [3, 4], [1, 1]⟩, [Effect.log LogLevel.info, Effect.mutedChanged]) := by
  decide

/-- C17: what the code does on the input where the claim fails.  When the payload lacks
`channelVolumes` or `channelMap`, the null result of the lookup is dereferenced: the call has no
result. -/
theorem onSpaParam_absent_array_has_no_result :
    (⟨false, [3, 4], [1, 1]⟩ : PwNodeBoundAudio ℚ).onSpaParam (fun x => x) SPA_PARAM_Props 0
        ⟨none, none, some true⟩ = none
      ∧ (⟨false, [3, 4], [1, 1]⟩ : PwNodeBoundAudio ℚ).onSpaParam (fun x => x) SPA_PARAM_Props 0
        ⟨none, some [3, 4], none⟩ = none
      ∧ (⟨false, [3, 4], [1, 1]⟩ : PwNodeBoundAudio ℚ).onSpaParam (fun x => x) SPA_PARAM_Props 0
        ⟨some [1, 1], none, none⟩ = none := by
  decide

end PayloadClaims

/-! ## The average after `setAverageVolume` -/

section AverageClaims

set_option linter.unusedSectionVars false

variable {F : Type} [Field F] [DecidableEq F]

theorem setAverageVolume_cache (node : PwNode F) (self : PwNodeBoundAudio F) (v : F)
    (hb : node.proxy = true) (hd : node.device = none) :
    (self.setAverageVolume node v).1
      = { self with mVolumes := specAverageVolumes self.mVolumes v } := by
  unfold PwNodeBoundAudio.setAverageVolume
  dsimp only
  rw [setAverageVolume_volumes self v]
  refine setVolumes_accepted node self _ hb ?_ ?_
  · unfold specAverageVolumes
    split_ifs <;> simp
  · intro device hdev
    rw [hd] at hdev
    cases hdev

theorem specMean_specAverageVolumes [CharZero F] (vols : List F) (v : F) (hne : vols ≠ []) :
    specMean (specAverageVolumes vols v) = v := by
  have hn : (vols.length : F) ≠ 0 := by
    rw [Nat.cast_ne_zero]
    exact fun h => hne (List.length_eq_zero.mp h)
  unfold specAverageVolumes
  split_ifs with h0
  · simp only [specMean, List.length_map]
    rw [List.map_const', List.sum_replicate, nsmul_eq_mul]
    field_simp
  · have hs : vols.sum ≠ 0 := by
      intro hs
      apply h0
      simp [specMean, hs]
    simp only [specMean, List.length_map]
    rw [List.sum_map_mul_right]
    field_simp

/-- C20: on a bound node with no device attached and a non-empty list of cached volumes, after
`setAverageVolume(v)` the value of `averageVolume()` is `v`, in exact arithmetic (a field of
characteristic zero), whether the previous average was zero or not. -/
theorem averageVolume_after_setAverageVolume [CharZero F] (node : PwNode F)
    (self : PwNodeBoundAudio F) (v : F) (hb : node.proxy = true) (hd : node.device = none)
    (hne : self.volumes ≠ []) :
    (self.setAverageVolume node v).1.averageVolume = v := by
  rw [averageVolume_eq_specMean, setAverageVolume_cache node self v hb hd]
  exact specMean_specAverageVolumes self.mVolumes v hne

/-- The two cases of C20: previous average zero, and previous average `0.3`. -/
theorem averageVolume_after_setAverageVolume_witness :
    ((⟨false, [3, 4], [0, 0]⟩ : PwNodeBoundAudio ℚ).setAverageVolume
        PwNode.boundNoDevice (1 / 2)).1.averageVolume = 1 / 2
      ∧ ((⟨false, [3, 4], [2 / 10, 4 / 10]⟩ : PwNodeBoundAudio ℚ).setAverageVolume
        PwNode.boundNoDevice (6 / 10)).1.averageVolume = 6 / 10 :=
  ⟨averageVolume_after_setAverageVolume PwNode.boundNoDevice ⟨false, [3, 4], [0, 0]⟩ (1 / 2)
      rfl rfl (by decide),
    averageVolume_after_setAverageVolume PwNode.boundNoDevice
      ⟨false, [3, 4], [2 / 10, 4 / 10]⟩ (6 / 10) rfl rfl (by decide)⟩

end AverageClaims

end Pipewire

/-! # Runtime directories: the instance directory -/

namespace Core

theorem baseRunDir_shellRunState (env : PathsEnv) (self : QsPaths) :
    (self.baseRunDir env).1.shellRunState = self.shellRunState := by
  unfold QsPaths.baseRunDir
  dsimp only
  split_ifs <;> rfl

theorem instanceRunDir_shellRunState (env : PathsEnv) (self : QsPaths) :
    (self.instanceRunDir env).1.shellRunState = self.shellRunState := by
  have hb := baseRunDir_shellRunState env self
  unfold QsPaths.instanceRunDir
  dsimp only
  by_cases hi : self.instanceRunState = DirState.Unknown
  · simp only [hi, if_true]
    cases hr : (self.baseRunDir env).2 with
    | none =>
      dsimp only
      split_ifs <;> exact hb
    | some runDir =>
      dsimp only
      split_ifs <;> exact hb
  · simp only [hi, if_false]
    split_ifs <;> rfl

theorem instanceRunDir_null_iff (env : PathsEnv) (self : QsPaths) :
    (self.instanceRunDir env).2 = none ↔ self.shellRunState = DirState.Failed := by
  have hs := instanceRunDir_shellRunState env self
  unfold QsPaths.instanceRunDir at hs ⊢
  dsimp only at hs ⊢
  split_ifs at hs ⊢ with h1 h2 h2
  · exact ⟨fun _ => hs ▸ h2, fun _ => rfl⟩
  · exact ⟨fun h => (by cases h), fun h => absurd (hs ▸ h) h2⟩
  · exact ⟨fun _ => h2, fun _ => rfl⟩
  · exact ⟨fun h => (by cases h), fun h => absurd h h2⟩

/-- C21: what the code does on the inputs where the claim fails.  On a fresh `QsPaths` when no
directory can be created, `instanceRunDir` sets `instanceRunState` to `Failed` and still returns
a directory; after `shellRunDir` failed while the instance directory can be created, it sets
`instanceRunState` to `Ready` and returns the null pointer. -/
theorem instanceRunDir_reads_shellRunState :
    ((QsPaths.fresh "shell" "path").instanceRunDir PathsEnv.readOnly).1.instanceRunState
        = DirState.Failed
      ∧ ((QsPaths.fresh "shell" "path").instanceRunDir PathsEnv.readOnly).2.isSome = true
      ∧ ((QsPaths.fresh "shell" "path").shellRunDir PathsEnv.noShellDir).1.shellRunState
        = DirState.Failed
      ∧ (((QsPaths.fresh "shell" "path").shellRunDir PathsEnv.noShellDir).1.instanceRunDir
          PathsEnv.noShellDir).1.instanceRunState = DirState.Ready
      ∧ (((QsPaths.fresh "shell" "path").shellRunDir PathsEnv.noShellDir).1.instanceRunDir
          PathsEnv.noShellDir).2 = none := by
  decide

end Core

/-! # Proxy windows: the colour without backing window -/

namespace Window

theorem setColor_without_window {F : Type} [Mul F] [DecidableEq F] (self : ProxyWindowBase F)
    (color : QColor F) (h : self.window = false) :
    self.setColor color = ({ self with mColor := color }, []) := by
  simp [ProxyWindowBase.setColor, h]

/-- C22: what the code does on the input where the claim fails.  Without backing window,
`setColor(red)` on a white proxy stores red, which `color()` then returns, and emits nothing,
although red differs from the colour stored before. -/
theorem setColor_without_window_never_notifies :
    ((⟨false, ⟨1, 1, 1, 1⟩⟩ : ProxyWindowBase ℚ).setColor ⟨1, 0, 0, 1⟩).1.color = ⟨1, 0, 0, 1⟩
      ∧ ((⟨false, ⟨1, 1, 1, 1⟩⟩ : ProxyWindowBase ℚ).setColor ⟨1, 0, 0, 1⟩).2 = []
      ∧ (⟨1, 0, 0, 1⟩ : QColor ℚ) ≠ (⟨false, ⟨1, 1, 1, 1⟩⟩ : ProxyWindowBase ℚ).color := by
  decide

end Window
